import Mathlib

/-!
Verification development for the `deckwarden` Decky plugin backend
(`src/main.py`).  The backend wraps the Bitwarden CLI (`bw`): it locates the
binary, shells out to it, parses its output, and persists a master password,
an account email and a session token to three flat files.

This file shallowly embeds the backend:

* the external codecs the code calls (`str.encode('utf-8')`,
  `base64.b64encode` / `b64decode`) are modelled over `List Nat` byte lists;
* the `openssl` subprocess, the `bw` subprocess and `json.loads` are oracles
  (parameters of the embedding), since they are external binaries/libraries;
* the plugin's mutable state (in-memory fields, the two environment
  variables, the files it touches) is an explicit `PluginState` record, and
  every spawned subprocess is logged in a trace;
* Python exceptions that the code does not catch are modelled with `Except`.
-/

namespace Deckwarden

/-! ## UTF-8 codec (model of Python `str.encode('utf-8')` / `bytes.decode('utf-8')`) -/

/-- A Unicode scalar value: what a Python `str` element may hold once
surrogates are excluded (Python's UTF-8 codec rejects surrogates). -/
def isScalar (c : Nat) : Prop := c < 0xD800 ∨ (0xE000 ≤ c ∧ c < 0x110000)

instance (c : Nat) : Decidable (isScalar c) := by
  unfold isScalar
  infer_instance

/-- UTF-8 encoding of a single code point (standard 1-4 byte form). -/
def utf8EncodeCp (c : Nat) : List Nat :=
  if c < 0x80 then [c]
  else if c < 0x800 then [0xC0 + c / 64, 0x80 + c % 64]
  else if c < 0x10000 then [0xE0 + c / 4096, 0x80 + c / 64 % 64, 0x80 + c % 64]
  else [0xF0 + c / 262144, 0x80 + c / 4096 % 64, 0x80 + c / 64 % 64, 0x80 + c % 64]

/-- UTF-8 encoding of a code-point sequence. -/
def utf8EncodeCps (cps : List Nat) : List Nat :=
  cps.flatMap utf8EncodeCp

/-- UTF-8 encoding of a string, as Python `s.encode('utf-8')`. -/
def utf8EncodeStr (s : String) : List Nat :=
  utf8EncodeCps (s.data.map Char.toNat)

/-- Decoding of one UTF-8 sequence starting at byte `b` with following bytes
`rest`: returns the code point and how many bytes of `rest` were consumed.
Rejects stray continuation bytes, overlong forms, surrogates and values
beyond U+10FFFF, as Python's strict `bytes.decode('utf-8')` does. -/
def utf8DecodeOne (b : Nat) (rest : List Nat) : Option (Nat × Nat) :=
  if b < 0x80 then some (b, 0)
  else if b < 0xC2 then none
  else if b < 0xE0 then
    match rest with
    | b1 :: _ =>
      if 0x80 ≤ b1 ∧ b1 < 0xC0 then some ((b - 0xC0) * 64 + (b1 - 0x80), 1)
      else none
    | [] => none
  else if b < 0xF0 then
    match rest with
    | b1 :: b2 :: _ =>
      if 0x80 ≤ b1 ∧ b1 < 0xC0 ∧ 0x80 ≤ b2 ∧ b2 < 0xC0 then
        let c := (b - 0xE0) * 4096 + (b1 - 0x80) * 64 + (b2 - 0x80)
        if c < 0x800 ∨ (0xD800 ≤ c ∧ c < 0xE000) then none else some (c, 2)
      else none
    | _ => none
  else if b < 0xF5 then
    match rest with
    | b1 :: b2 :: b3 :: _ =>
      if 0x80 ≤ b1 ∧ b1 < 0xC0 ∧ 0x80 ≤ b2 ∧ b2 < 0xC0 ∧ 0x80 ≤ b3 ∧ b3 < 0xC0 then
        let c := (b - 0xF0) * 262144 + (b1 - 0x80) * 4096 + (b2 - 0x80) * 64 + (b3 - 0x80)
        if c < 0x10000 ∨ 0x110000 ≤ c then none else some (c, 3)
      else none
    | _ => none
  else none

/-- Strict UTF-8 decoding of a byte list to its code points. -/
def utf8DecodeCps : List Nat → Option (List Nat)
  | [] => some []
  | b :: rest =>
    match utf8DecodeOne b rest with
    | none => none
    | some (c, k) => (utf8DecodeCps (rest.drop k)).map (c :: ·)
termination_by l => l.length
decreasing_by
  simp only [List.length_cons, List.length_drop]
  omega

/-! ## Base64 codec (model of Python `base64.b64encode` / `base64.b64decode`).
The decoder is strict about the alphabet and padding; the lenient cleanup of
foreign characters that `binascii` performs is not modelled, since the code
only ever decodes data this encoder (or `openssl -a`) produced. -/

/-- Base64 alphabet: sextet to ASCII code. -/
def b64Char (n : Nat) : Nat :=
  if n < 26 then 65 + n
  else if n < 52 then 97 + (n - 26)
  else if n < 62 then 48 + (n - 52)
  else if n = 62 then 43
  else 47

/-- Inverse of the base64 alphabet: ASCII code to sextet. -/
def b64CharDec (a : Nat) : Option Nat :=
  if 65 ≤ a ∧ a ≤ 90 then some (a - 65)
  else if 97 ≤ a ∧ a ≤ 122 then some (a - 97 + 26)
  else if 48 ≤ a ∧ a ≤ 57 then some (a - 48 + 52)
  else if a = 43 then some 62
  else if a = 47 then some 63
  else none

/-- Base64 encoding of a byte list (61 is the ASCII code of the `=` pad). -/
def b64Encode : List Nat → List Nat
  | [] => []
  | [a] => [b64Char (a / 4), b64Char (a % 4 * 16), 61, 61]
  | [a, b] => [b64Char (a / 4), b64Char (a % 4 * 16 + b / 16), b64Char (b % 16 * 4), 61]
  | a :: b :: c :: rest =>
    b64Char (a / 4) :: b64Char (a % 4 * 16 + b / 16) :: b64Char (b % 16 * 4 + c / 64) ::
      b64Char (c % 64) :: b64Encode rest

/-- Decoding of one base64 quad: the decoded bytes and whether padding was
seen (in which case the quad must be the last one). -/
def b64DecodeQuad (a b c d : Nat) : Option (List Nat × Bool) :=
  match b64CharDec a, b64CharDec b with
  | some s1, some s2 =>
    if c = 61 then
      if d = 61 then some ([s1 * 4 + s2 / 16], true) else none
    else
      match b64CharDec c with
      | some s3 =>
        if d = 61 then some ([s1 * 4 + s2 / 16, s2 % 16 * 16 + s3 / 4], true)
        else
          match b64CharDec d with
          | some s4 =>
            some ([s1 * 4 + s2 / 16, s2 % 16 * 16 + s3 / 4, s3 % 4 * 64 + s4], false)
          | none => none
      | none => none
  | _, _ => none

/-- Base64 decoding of a byte list, quad by quad. -/
def b64Decode : List Nat → Option (List Nat)
  | [] => some []
  | [_] => none
  | [_, _] => none
  | [_, _, _] => none
  | a :: b :: c :: d :: rest =>
    match b64DecodeQuad a b c d with
    | none => none
    | some (bytes, final) =>
      if final then (if rest = [] then some bytes else none)
      else (b64Decode rest).map (bytes ++ ·)

/-! ## Python values, dictionaries and string helpers -/

/-- A Python value, as far as the backend's dictionaries need. -/
inductive PyVal where
  | pyNone
  | pyBool (b : Bool)
  | pyInt (n : Int)
  | pyStr (s : String)
  | pyList (xs : List PyVal)
  | pyDict (kvs : List (String × PyVal))

/-- The dictionaries the handlers build and return (insertion ordered). -/
abbrev Dict := List (String × PyVal)

/-- Dictionary lookup, as Python `d.get(k)`. -/
def dLookup (d : Dict) (k : String) : Option PyVal :=
  (d.find? (fun kv => kv.1 == k)).map (·.2)

/-- Dictionary lookup with default, as Python `d.get(k, dflt)`. -/
def dGetD (d : Dict) (k : String) (dflt : PyVal) : PyVal :=
  (dLookup d k).getD dflt

/-- Python truthiness of a value. -/
def pyTruthy : PyVal → Bool
  | .pyNone => false
  | .pyBool b => b
  | .pyInt n => n != 0
  | .pyStr s => !s.isEmpty
  | .pyList xs => !xs.isEmpty
  | .pyDict kvs => !kvs.isEmpty

/-- Python `str.strip()`: drop whitespace from both ends. -/
def pyStrip (s : String) : String :=
  ⟨((s.data.dropWhile Char.isWhitespace).reverse.dropWhile Char.isWhitespace).reverse⟩

/-- Python `a or b` on strings (empty is falsy). -/
def pyOrStr (a b : String) : String :=
  if a.isEmpty then b else a

/-- Truthiness of a Python `str | None` value. -/
def truthyOpt : Option String → Bool
  | none => false
  | some s => !s.isEmpty

/-- The string value of a `PyVal` expected to be a string (the handlers only
apply this to values they built as strings). -/
def asStr : PyVal → String
  | .pyStr s => s
  | _ => ""

/-- The element list of a `PyVal` expected to be a list. -/
def asList : PyVal → List PyVal
  | .pyList xs => xs
  | _ => []

/-- Python `v == s` for a string literal `s` (a non-`str` value never equals
a `str`). -/
def pyEqStr (v : PyVal) (s : String) : Bool :=
  match v with
  | .pyStr t => t == s
  | _ => false

/-! ## Oracles for the external world -/

/-- Uncaught Python exceptions the embedding can surface. -/
inductive PyExc where
  | spawnError
  | unicodeDecodeError
deriving DecidableEq, Repr

/-- Behaviour of the `openssl` subprocess in `_encrypt_password` /
`_decrypt_password`: `none` means the call failed (binary missing, i.e.
`FileNotFoundError`, or non-zero exit, i.e. `CalledProcessError`); `some out`
means it succeeded with stdout `out`. -/
structure OpensslEnv where
  encResult : List Nat → Option (List Nat)
  decResult : List Nat → Option (List Nat)

/-- A consistent environment in the sense of the reversibility claim: either
`openssl` is unavailable for both directions (so both fall back to base64),
or it is available and decryption with the same key inverts encryption. -/
def consistentOpenssl (env : OpensslEnv) : Prop :=
  ((∀ bs, env.encResult bs = none) ∧ (∀ bs, env.decResult bs = none)) ∨
  (∀ bs, ∃ ct, env.encResult bs = some ct ∧ env.decResult ct = some bs)

/-- String built back from decoded code points. -/
def strOfCps (cps : List Nat) : String :=
  ⟨cps.map Char.ofNat⟩

/-! ## Password obfuscation (`Plugin._encrypt_password`, lines 85-99, and
`Plugin._decrypt_password`, lines 101-118 of `src/main.py`) -/

/-- Model of `_encrypt_password`: try `openssl enc -aes-256-cbc ... -a` on the
UTF-8 bytes of the password; on `CalledProcessError` / `FileNotFoundError`
fall back to `base64.b64encode(password.encode('utf-8'))`. -/
def encrypt_password (env : OpensslEnv) (password : String) : List Nat :=
  match env.encResult (utf8EncodeStr password) with
  | some out => out
  | none => b64Encode (utf8EncodeStr password)

/-- Model of `_decrypt_password`: try `openssl enc -aes-256-cbc -d ... -a`;
on success return `stdout.decode('utf-8')` (whose failure would escape as
`UnicodeDecodeError`, uncaught); on subprocess failure fall back to
`base64.b64decode(data).decode('utf-8')`, where any exception yields `None`. -/
def decrypt_password (env : OpensslEnv) (encrypted_data : List Nat) :
    Except PyExc (Option String) :=
  match env.decResult encrypted_data with
  | some out =>
    match utf8DecodeCps out with
    | some cps => .ok (some (strOfCps cps))
    | none => .error .unicodeDecodeError
  | none =>
    match b64Decode encrypted_data with
    | none => .ok none
    | some bs =>
      match utf8DecodeCps bs with
      | none => .ok none
      | some cps => .ok (some (strOfCps cps))

/-! ## Plugin state, filesystem and the `bw` oracle -/

/-- Host-provided directory roots (`decky.DECKY_PLUGIN_DIR`,
`decky.DECKY_PLUGIN_RUNTIME_DIR`, `decky.DECKY_PLUGIN_SETTINGS_DIR`,
`decky.DECKY_USER`). -/
structure DeckyEnv where
  pluginDir : String
  runtimeDir : String
  settingsDir : String
  user : String

/-- A filesystem path, as a list of components. -/
abbrev FsPath := List String

/-- Model of `_bw_binary_path` (line 21): `DECKY_PLUGIN_DIR / bin / bw`. -/
def bw_binary_path (d : DeckyEnv) : FsPath := [d.pluginDir, "bin", "bw"]

/-- Model of `_password_file` (line 30): runtime dir / deckwarden / saved_password.txt. -/
def password_file (d : DeckyEnv) : FsPath := [d.runtimeDir, "deckwarden", "saved_password.txt"]

/-- Model of `_email_file` (line 33): settings dir / deckwarden / saved_email.txt. -/
def email_file (d : DeckyEnv) : FsPath := [d.settingsDir, "deckwarden", "saved_email.txt"]

/-- Model of `_session_file` (line 39): runtime dir / deckwarden / bw_session.txt. -/
def session_file (d : DeckyEnv) : FsPath := [d.runtimeDir, "deckwarden", "bw_session.txt"]

/-- File contents by path; `none` when the file does not exist. -/
abbrev Fs := FsPath → Option (List Nat)

/-- Write (`some bytes`) or unlink (`none`) one path. -/
def fsWrite (fs : Fs) (p : FsPath) (v : Option (List Nat)) : Fs :=
  fun q => if q = p then v else fs q

/-- The plugin's mutable world: its three in-memory fields, the two
environment variables it uses, the filesystem, and a trace of the argument
lists of every `bw` subprocess spawned so far. -/
structure PluginState where
  savedPassword : Option String
  savedEmail : Option String
  session : Option String
  envPassword : Option String
  envSession : Option String
  fs : Fs
  spawned : List (List String)

/-- Outcome of attempting to spawn the `bw` subprocess: spawning itself can
raise, or the process runs to completion with an exit code and stdout/stderr
text. -/
inductive RunOutcome where
  | raise
  | exit (code : Int) (stdout stderr : String)

/-- The external world: host directories, whether the `bw` binary exists as a
file, the behaviour of `bw` (by argument list, stdin text and session), the
behaviour of `openssl`, and `json.loads`. -/
structure Sys where
  decky : DeckyEnv
  bwExists : Bool
  run : List String → Option String → Option String → RunOutcome
  openssl : OpensslEnv
  json : String → Option PyVal

/-- Python `path.read_text(encoding="utf-8")` applied to bytes already in
hand: a decode failure raises `UnicodeDecodeError`. -/
def readText (bs : List Nat) : Except PyExc String :=
  match utf8DecodeCps bs with
  | some cps => .ok (strOfCps cps)
  | none => .error .unicodeDecodeError

/-- Python `d.get(k)` expected to be a dict (as the code assumes of parsed
JSON objects). -/
def asDict : PyVal → Dict
  | .pyDict kvs => kvs
  | _ => []

/-- Python `not result.get("success")` on a handler result dictionary. -/
def resFailed (d : Dict) : Bool :=
  !pyTruthy (dGetD d "success" .pyNone)

/-- Model of `_run_bw` (lines 226-262).  The `env` dictionary parameter of
the Python signature is omitted: no caller passes it.  When the binary is
missing the not-found dictionary is returned without spawning; when spawning
raises, the exception propagates (there is no try/except around it); when the
process exits non-zero the failure dictionary carries the stripped stderr,
else stdout, else a fixed message, plus the exit code. -/
def run_bw (sys : Sys) (st : PluginState) (args : List String) (input_text : Option String)
    (session : Option String) : Except PyExc (Dict × PluginState) :=
  if !sys.bwExists then
    .ok ([("success", .pyBool false),
          ("error", .pyStr ("Bitwarden CLI not found at " ++
            String.intercalate "/" (bw_binary_path sys.decky)))], st)
  else
    match sys.run args input_text session with
    | .raise => .error .spawnError
    | .exit code out err =>
      if code ≠ 0 then
        .ok ([("success", .pyBool false),
              ("error", .pyStr (pyOrStr (pyStrip err) (pyOrStr (pyStrip out) "Bitwarden CLI error"))),
              ("code", .pyInt code)], { st with spawned := st.spawned ++ [args] })
      else
        .ok ([("success", .pyBool true), ("stdout", .pyStr out), ("stderr", .pyStr err)],
          { st with spawned := st.spawned ++ [args] })

/-! ## Session caching (`src/main.py` lines 154-224) -/

/-- Model of `_clear_saved_session` (lines 186-194): clear the in-memory
session, pop `BW_SESSION`, and unlink the session file if present. -/
def clear_saved_session (sys : Sys) (st : PluginState) : PluginState :=
  { st with session := none, envSession := none,
            fs := fsWrite st.fs (session_file sys.decky) none }

/-- Model of `_save_session` (lines 173-184): write the session token to the
session file. -/
def save_session (sys : Sys) (st : PluginState) (session : String) : PluginState :=
  { st with fs := fsWrite st.fs (session_file sys.decky) (some (utf8EncodeStr session)) }

/-- Model of `_get_cached_session` (lines 196-213): memory first, then the
`BW_SESSION` environment variable, then the session file.  A file whose
bytes are not UTF-8 raises out of `read_text` (only `OSError` is caught). -/
def get_cached_session (sys : Sys) (st : PluginState) :
    Except PyExc (Option String × PluginState) :=
  if truthyOpt st.session then .ok (st.session, st)
  else if truthyOpt st.envSession then .ok (st.envSession, { st with session := st.envSession })
  else
    match st.fs (session_file sys.decky) with
    | none => .ok (none, st)
    | some bs =>
      match readText bs with
      | .error e => .error e
      | .ok s =>
        let saved := pyStrip s
        if !saved.isEmpty then
          .ok (some saved, { st with envSession := some saved, session := some saved })
        else .ok (none, st)

/-- Characters of the session-key character class `[A-Za-z0-9+/=]` (Python
checks `ch.isalnum() or ch in "+/="`; only ASCII alphanumerics occur in
session keys). -/
def isSessChar (c : Char) : Bool :=
  c.isAlphanum || c == '+' || c == '/' || c == '='

/-- Search for the regex `BW_SESSION=\"?([A-Za-z0-9+/=]+)\"?`: at the first
position where the literal `BW_SESSION=` occurs and, after an optional
double quote, at least one session character follows, return the maximal run
of session characters. -/
def findBwSession : List Char → Option (List Char)
  | [] => none
  | c :: rest =>
    if ("BW_SESSION=".data).isPrefixOf (c :: rest) then
      match (c :: rest).drop 11 with
      | '\"' :: r =>
        if (r.takeWhile isSessChar) ≠ [] then some (r.takeWhile isSessChar)
        else findBwSession rest
      | after =>
        if (after.takeWhile isSessChar) ≠ [] then some (after.takeWhile isSessChar)
        else findBwSession rest
    else findBwSession rest

/-- Model of `_parse_session_from_output` (lines 215-224). -/
def parse_session_from_output (output : String) : Option String :=
  if output.isEmpty then none
  else
    match findBwSession output.data with
    | some run => some ⟨run⟩
    | none =>
      let o := pyStrip output
      if !o.isEmpty && o.data.all isSessChar then some o else none

/-! ## Request handlers (`src/main.py` lines 268-570) -/

/-- Model of `bw_status` (lines 268-276). -/
def bw_status (sys : Sys) (st : PluginState) : Except PyExc (Dict × PluginState) :=
  match run_bw sys st ["status"] none none with
  | .error e => .error e
  | .ok (result, st1) =>
    if resFailed result then .ok (result, st1)
    else
      match sys.json (pyOrStr (asStr (dGetD result "stdout" (.pyStr ""))) "{}") with
      | none => .ok ([("success", .pyBool false),
                      ("error", .pyStr "Failed to parse bw status output")], st1)
      | some data => .ok ([("success", .pyBool true), ("status", data)], st1)

/-- Model of `bw_sync` (lines 278-285). -/
def bw_sync (sys : Sys) (st : PluginState) : Except PyExc (Dict × PluginState) :=
  match get_cached_session sys st with
  | .error e => .error e
  | .ok (session, st1) =>
    if !truthyOpt session then
      .ok ([("success", .pyBool false), ("error", .pyStr "No active session. Please login.")], st1)
    else
      match run_bw sys st1 ["sync"] none session with
      | .error e => .error e
      | .ok (result, st2) =>
        if resFailed result then .ok (result, st2)
        else .ok ([("success", .pyBool true),
                   ("output", .pyStr (pyStrip (asStr (dGetD result "stdout" (.pyStr "")))))], st2)

/-- The summary loop of `bw_list_items` (lines 301-308): keep dict items with
truthy `id` and `name`. -/
def summarize_items : List PyVal → List PyVal
  | [] => []
  | .pyDict kvs :: rest =>
    let i := dGetD kvs "id" .pyNone
    let n := dGetD kvs "name" .pyNone
    if pyTruthy i && pyTruthy n then .pyDict [("id", i), ("name", n)] :: summarize_items rest
    else summarize_items rest
  | _ :: rest => summarize_items rest

/-- Model of `bw_list_items` (lines 287-309). -/
def bw_list_items (sys : Sys) (st : PluginState) (search : String) :
    Except PyExc (Dict × PluginState) :=
  let search1 := pyStrip search
  if search1.isEmpty then .ok ([("success", .pyBool true), ("items", .pyList [])], st)
  else
    match get_cached_session sys st with
    | .error e => .error e
    | .ok (session, st1) =>
      if !truthyOpt session then
        .ok ([("success", .pyBool false), ("error", .pyStr "No active session. Please login.")], st1)
      else
        match run_bw sys st1 ["list", "items", "--search", search1] none session with
        | .error e => .error e
        | .ok (result, st2) =>
          if resFailed result then .ok (result, st2)
          else
            match sys.json (pyOrStr (asStr (dGetD result "stdout" (.pyStr ""))) "[]") with
            | none => .ok ([("success", .pyBool false),
                            ("error", .pyStr "Failed to parse bw list output")], st2)
            | some items =>
              .ok ([("success", .pyBool true),
                    ("items", .pyList (summarize_items (asList items)))], st2)

/-- The uri loop of `bw_get_item` (lines 327-330). -/
def collect_uris : List PyVal → List PyVal
  | [] => []
  | .pyDict kvs :: rest =>
    let u := dGetD kvs "uri" .pyNone
    if pyTruthy u then u :: collect_uris rest else collect_uris rest
  | _ :: rest => collect_uris rest

/-- Model of `bw_get_item` (lines 311-347): fetches the item, then always
also runs `bw get totp` for it. -/
def bw_get_item (sys : Sys) (st : PluginState) (item_id : String) :
    Except PyExc (Dict × PluginState) :=
  let id1 := pyStrip item_id
  if id1.isEmpty then
    .ok ([("success", .pyBool false), ("error", .pyStr "Missing item id")], st)
  else
    match get_cached_session sys st with
    | .error e => .error e
    | .ok (session, st1) =>
      if !truthyOpt session then
        .ok ([("success", .pyBool false), ("error", .pyStr "No active session. Please login.")], st1)
      else
        match run_bw sys st1 ["get", "item", id1] none session with
        | .error e => .error e
        | .ok (result, st2) =>
          if resFailed result then .ok (result, st2)
          else
            match sys.json (pyOrStr (asStr (dGetD result "stdout" (.pyStr ""))) "{}") with
            | none => .ok ([("success", .pyBool false),
                            ("error", .pyStr "Failed to parse bw get item output")], st2)
            | some item =>
              let itemD := asDict item
              let loginV := dGetD itemD "login" .pyNone
              let login := if pyTruthy loginV then asDict loginV else []
              let urisV := dGetD login "uris" .pyNone
              let uris := collect_uris (asList (if pyTruthy urisV then urisV else .pyList []))
              match run_bw sys st2 ["get", "totp", id1] none session with
              | .error e => .error e
              | .ok (totp_result, st3) =>
                let totp : PyVal :=
                  if !resFailed totp_result then
                    let t := pyStrip (asStr (dGetD totp_result "stdout" (.pyStr "")))
                    if t.isEmpty then .pyNone else .pyStr t
                  else .pyNone
                .ok ([("success", .pyBool true),
                      ("item", .pyDict [("id", dGetD itemD "id" .pyNone),
                                        ("name", dGetD itemD "name" .pyNone),
                                        ("username", dGetD login "username" .pyNone),
                                        ("password", dGetD login "password" .pyNone),
                                        ("totp", totp),
                                        ("uris", .pyList uris)])], st3)

/-- Model of `bw_config_server` (lines 349-360). -/
def bw_config_server (sys : Sys) (st : PluginState) (server : String) :
    Except PyExc (Dict × PluginState) :=
  let server_value := (pyStrip server).toLower
  let server_url : Option String :=
    if server_value = "us" then some "https://vault.bitwarden.com"
    else if server_value = "eu" then some "https://vault.bitwarden.eu"
    else none
  match server_url with
  | none =>
    .ok ([("success", .pyBool false), ("error", .pyStr "Server must be \x27us\x27 or \x27eu\x27")], st)
  | some url =>
    match run_bw sys st ["config", "server", url] none none with
    | .error e => .error e
    | .ok (result, st1) =>
      if resFailed result then .ok (result, st1)
      else .ok ([("success", .pyBool true), ("server", .pyStr url)], st1)

/-- The tail of `login_and_sync` (lines 398-414): unlock with the
`BW_PASSWORD` environment variable, parse and persist the session, sync. -/
def unlock_and_sync (sys : Sys) (st : PluginState) : Except PyExc (Dict × PluginState) :=
  match run_bw sys st ["unlock", "--passwordenv", "BW_PASSWORD"] none none with
  | .error e => .error e
  | .ok (unlock_result, st1) =>
    if resFailed unlock_result then .ok (unlock_result, st1)
    else
      match parse_session_from_output (pyOrStr (asStr (dGetD unlock_result "stdout" (.pyStr ""))) "") with
      | none => .ok ([("success", .pyBool false),
                      ("error", .pyStr "Failed to retrieve session key")], st1)
      | some session =>
        let st2 := save_session sys { st1 with session := some session, envSession := some session } session
        match run_bw sys st2 ["sync"] none (some session) with
        | .error e => .error e
        | .ok (sync_result, st3) =>
          if resFailed sync_result then .ok (sync_result, st3)
          else .ok ([("success", .pyBool true)], st3)

/-- The `effective_password` local of `login_and_sync` (line 373): the
stripped argument, else the saved password, else the `BW_PASSWORD`
environment variable. -/
def effectivePassword (st : PluginState) (password1 : String) : Option String :=
  if !password1.isEmpty then some password1
  else if truthyOpt st.savedPassword then st.savedPassword
  else st.envPassword

/-- The `effective_email` local of `login_and_sync` (line 367). -/
def effectiveEmail (st : PluginState) (email1 : String) : Option String :=
  if !email1.isEmpty then some email1 else st.savedEmail

/-- The `status` local of `login_and_sync` (lines 381-386): the parsed
status object, or `{}` when the status call or its parsing failed. -/
def statusOf (sys : Sys) (status_result : Dict) : Dict :=
  if !resFailed status_result then
    match sys.json (pyOrStr (asStr (dGetD status_result "stdout" (.pyStr ""))) "{}") with
    | some v => asDict v
    | none => []
  else []

/-- The `login_args` local of `login_and_sync` (lines 391-393). -/
def loginArgs (em pw totp1 : String) : List String :=
  ["login", em, pw] ++ (if !totp1.isEmpty then ["--method", "0", "--code", totp1] else [])

/-- Model of `login_and_sync` (lines 362-414): configure the server, choose
the effective password (argument, then saved, then environment), check
status, log in if unauthenticated, then unlock and sync. -/
def login_and_sync (sys : Sys) (st : PluginState) (email password server : String)
    (totp_code : Option String) : Except PyExc (Dict × PluginState) :=
  match bw_config_server sys st server with
  | .error e => .error e
  | .ok (config_result, st1) =>
    if resFailed config_result then .ok (config_result, st1)
    else
      if !truthyOpt (effectivePassword st1 (pyStrip password)) then
        .ok ([("success", .pyBool false), ("error", .pyStr "Missing password")], st1)
      else
        match run_bw sys { st1 with envPassword := effectivePassword st1 (pyStrip password) }
            ["status"] none none with
        | .error e => .error e
        | .ok (status_result, st3) =>
          if pyEqStr (dGetD (statusOf sys status_result) "status" .pyNone) "unauthenticated" then
            if !truthyOpt (effectiveEmail st (pyStrip email)) then
              .ok ([("success", .pyBool false), ("error", .pyStr "Email required for login")], st3)
            else
              match run_bw sys st3
                  (loginArgs ((effectiveEmail st (pyStrip email)).getD "")
                    ((effectivePassword st1 (pyStrip password)).getD "")
                    (pyStrip (totp_code.getD ""))) none none with
              | .error e => .error e
              | .ok (login_result, st4) =>
                if resFailed login_result then .ok (login_result, st4)
                else unlock_and_sync sys st4
          else unlock_and_sync sys st3

/-- Model of `clear_saved_password` (lines 522-531): drop the in-memory
password, pop `BW_PASSWORD`, unlink the password file. -/
def clear_saved_password (sys : Sys) (st : PluginState) : Dict × PluginState :=
  ([("success", .pyBool true)],
   { st with savedPassword := none, envPassword := none,
             fs := fsWrite st.fs (password_file sys.decky) none })

/-- Model of `clear_saved_email` (lines 533-541). -/
def clear_saved_email (sys : Sys) (st : PluginState) : Dict × PluginState :=
  ([("success", .pyBool true)],
   { st with savedEmail := none, fs := fsWrite st.fs (email_file sys.decky) none })

/-- Model of `bw_lock` (lines 416-422): run `bw lock` with whatever session
is cached, then clear the saved session whatever the result was. -/
def bw_lock (sys : Sys) (st : PluginState) : Except PyExc (Dict × PluginState) :=
  match get_cached_session sys st with
  | .error e => .error e
  | .ok (session, st1) =>
    match run_bw sys st1 ["lock"] none session with
    | .error e => .error e
    | .ok (result, st2) =>
      if resFailed result then .ok (result, clear_saved_session sys st2)
      else .ok ([("success", .pyBool true)], clear_saved_session sys st2)

/-- Model of `bw_logout` (lines 424-432): run `bw logout`, then clear the
saved session, password and email whatever the result was. -/
def bw_logout (sys : Sys) (st : PluginState) : Except PyExc (Dict × PluginState) :=
  match get_cached_session sys st with
  | .error e => .error e
  | .ok (session, st1) =>
    match run_bw sys st1 ["logout"] none session with
    | .error e => .error e
    | .ok (result, st2) =>
      if resFailed result then
        .ok (result,
          (clear_saved_email sys (clear_saved_password sys (clear_saved_session sys st2)).2).2)
      else
        .ok ([("success", .pyBool true)],
          (clear_saved_email sys (clear_saved_password sys (clear_saved_session sys st2)).2).2)

/-- Model of `save_password` (lines 479-499): set `BW_PASSWORD`, write the
obfuscated password to the password file, remember it in memory. -/
def save_password (sys : Sys) (st : PluginState) (password : String) : Dict × PluginState :=
  if password.isEmpty then
    ([("success", .pyBool false), ("error", .pyStr "Password is empty")], st)
  else
    let st1 := { st with envPassword := some password }
    let encrypted_data := encrypt_password sys.openssl password
    let st2 := { st1 with fs := fsWrite st1.fs (password_file sys.decky) (some encrypted_data) }
    ([("success", .pyBool true)], { st2 with savedPassword := some password })

/-- Model of `save_email` (lines 501-520): write the stripped email to the
email file and remember it in memory. -/
def save_email (sys : Sys) (st : PluginState) (email : String) : Dict × PluginState :=
  let email1 := pyStrip email
  if email1.isEmpty then
    ([("success", .pyBool false), ("error", .pyStr "Email is empty")], st)
  else
    let st1 := { st with fs := fsWrite st.fs (email_file sys.decky) (some (utf8EncodeStr email1)) }
    ([("success", .pyBool true)], { st1 with savedEmail := some email1 })

/-- Model of `get_saved_password_status` (lines 543-558): memory, then the
environment variable, then decrypting the password file. -/
def get_saved_password_status (sys : Sys) (st : PluginState) :
    Except PyExc (Dict × PluginState) :=
  match st.savedPassword with
  | some p => .ok ([("saved", .pyBool true), ("password", .pyStr p)], st)
  | none =>
    match st.envPassword with
    | some p => .ok ([("saved", .pyBool true), ("password", .pyStr p)], st)
    | none =>
      match st.fs (password_file sys.decky) with
      | some encrypted_data =>
        match decrypt_password sys.openssl encrypted_data with
        | .error e => .error e
        | .ok decrypted =>
          if truthyOpt decrypted then
            .ok ([("saved", .pyBool true), ("password", .pyStr (decrypted.getD ""))], st)
          else .ok ([("saved", .pyBool false), ("password", .pyNone)], st)
      | none => .ok ([("saved", .pyBool false), ("password", .pyNone)], st)

/-- Model of `get_saved_email_status` (lines 560-570). -/
def get_saved_email_status (sys : Sys) (st : PluginState) :
    Except PyExc (Dict × PluginState) :=
  match st.savedEmail with
  | some e => .ok ([("saved", .pyBool true), ("email", .pyStr e)], st)
  | none =>
    match st.fs (email_file sys.decky) with
    | none => .ok ([("saved", .pyBool false), ("email", .pyNone)], st)
    | some bs =>
      match readText bs with
      | .error e => .error e
      | .ok s =>
        let saved := pyStrip s
        .ok ([("saved", .pyBool (!saved.isEmpty)),
              ("email", if saved.isEmpty then .pyNone else .pyStr saved)], st)

/-- Model of `_load_saved_password` (lines 120-141). -/
def load_saved_password (sys : Sys) (st : PluginState) : Except PyExc PluginState :=
  if truthyOpt st.envPassword then .ok { st with savedPassword := st.envPassword }
  else
    match st.fs (password_file sys.decky) with
    | none => .ok { st with savedPassword := none }
    | some encrypted_data =>
      if encrypted_data ≠ [] then
        match decrypt_password sys.openssl encrypted_data with
        | .error e => .error e
        | .ok decrypted =>
          if truthyOpt decrypted then
            .ok { st with envPassword := decrypted, savedPassword := decrypted }
          else .ok { st with savedPassword := none }
      else .ok { st with savedPassword := none }

/-- Model of `_load_saved_email` (lines 143-152). -/
def load_saved_email (sys : Sys) (st : PluginState) : Except PyExc PluginState :=
  match st.fs (email_file sys.decky) with
  | none => .ok { st with savedEmail := none }
  | some bs =>
    match readText bs with
    | .error e => .error e
    | .ok s =>
      let saved := pyStrip s
      .ok { st with savedEmail := if saved.isEmpty then none else some saved }

/-- Model of `_load_saved_session` (lines 154-171). -/
def load_saved_session (sys : Sys) (st : PluginState) : Except PyExc PluginState :=
  if truthyOpt st.envSession then .ok { st with session := st.envSession }
  else
    match st.fs (session_file sys.decky) with
    | none => .ok { st with session := none }
    | some bs =>
      match readText bs with
      | .error e => .error e
      | .ok s =>
        let saved := pyStrip s
        if !saved.isEmpty then
          .ok { st with envSession := some saved, session := some saved }
        else .ok { st with session := none }

/-! ## Zip extraction (`extract_bw_zip`, lines 434-477) -/

/-- One archive member as `zipfile` presents it (`is_dir()` is true exactly
when the stored name ends in a slash). -/
structure ZipMember where
  filename : String
  content : List Nat

/-- Python `ZipInfo.is_dir()`: the stored name ends in a slash. -/
def ZipMember.isDirEntry (m : ZipMember) : Bool :=
  m.filename.data.getLast? == some '/'

/-- Split a character list on `/`. -/
def splitSlash : List Char → List Char → List String
  | [], acc => [⟨acc.reverse⟩]
  | '/' :: rest, acc => (⟨acc.reverse⟩ : String) :: splitSlash rest []
  | c :: rest, acc => splitSlash rest (c :: acc)

/-- `PurePosixPath(name).parts` without the root anchor: split on `/`, drop
empty and `.` components (`pathlib` collapses both). -/
def posixParts (s : String) : List String :=
  (splitSlash s.data []).filter (fun p => p ≠ "" && p ≠ ".")

/-- `PurePosixPath(name).is_absolute()`: the name starts with `/`. -/
def posixIsAbsolute (s : String) : Bool :=
  match s.data with
  | '/' :: _ => true
  | _ => false

/-- The validation of lines 444-445: a member is unsafe when its path is
absolute or has a `..` component. -/
def unsafeMember (m : ZipMember) : Bool :=
  posixIsAbsolute m.filename || (posixParts m.filename).contains ".."

/-- A node of the plugin `bin` directory tree. -/
inductive FsNode where
  | file (content : List Nat)
  | dir

/-- The `bin` directory tree by path. -/
abbrev BinFs := FsPath → Option FsNode

/-- Write, replace or remove one node. -/
def binWrite (fs : BinFs) (p : FsPath) (v : Option FsNode) : BinFs :=
  fun q => if q = p then v else fs q

/-- The extraction loop of lines 450-469: directory members become
directories, file members overwrite whatever was at their destination; each
file write is recorded in order. -/
def extract_members (binDir : FsPath) :
    List ZipMember → BinFs → List FsPath → BinFs × List FsPath
  | [], fs, ws => (fs, ws)
  | m :: rest, fs, ws =>
    let dest := binDir ++ posixParts m.filename
    if m.isDirEntry then
      extract_members binDir rest (binWrite fs dest (some .dir)) ws
    else
      extract_members binDir rest (binWrite fs dest (some (.file m.content))) (ws ++ [dest])

/-- What the zip file at `bin/bw-oss-linux-2025.12.1.zip` holds: missing,
unreadable (`BadZipFile`), or an archive with a member list. -/
inductive ZipSource where
  | missing
  | badZip
  | archive (members : List ZipMember)

/-- Result of `extract_bw_zip`: the returned dictionary, the file paths
written (in order), and the resulting `bin` tree. -/
structure ExtractResult where
  res : Dict
  writes : List FsPath
  fs : BinFs

/-- Model of `extract_bw_zip` (lines 434-477): validate every member path
before extracting anything; extract; then require `bin/bw` to be a file. -/
def extract_bw_zip (sys : Sys) (zip : ZipSource) (fs : BinFs) : ExtractResult :=
  let binDir := [sys.decky.pluginDir, "bin"]
  match zip with
  | .missing =>
    ⟨[("success", .pyBool false),
      ("error", .pyStr ("Zip not found: " ++
        String.intercalate "/" (binDir ++ ["bw-oss-linux-2025.12.1.zip"])))], [], fs⟩
  | .badZip =>
    ⟨[("success", .pyBool false), ("error", .pyStr "Invalid zip file")], [], fs⟩
  | .archive members =>
    match members.find? unsafeMember with
    | some m =>
      ⟨[("success", .pyBool false),
        ("error", .pyStr ("Unsafe path in zip: " ++ m.filename))], [], fs⟩
    | none =>
      let out := extract_members binDir members fs []
      match out.1 (binDir ++ ["bw"]) with
      | some (.file _) => ⟨[("success", .pyBool true)], out.2, out.1⟩
      | _ =>
        ⟨[("success", .pyBool false),
          ("error", .pyStr "Extracted zip but bw binary is missing")], out.2, out.1⟩

/-- Modelled from the spec: the repository's other revisions (not under
`src/`) fetch the `bw` CLI binary over the network when it is not already
present locally — the spec's purpose section describes the backend's job as
"locate or download the `bw` executable", and `src/main.py` imports
`urllib.request` / `urllib.error` without using them.  The model installs
the fetched bytes at `bw_binary_path` when nothing is there, and reports
whether a network fetch happened. -/
def download_bw_binary (sys : Sys) (fetched : List Nat) (fs : BinFs) : BinFs × Bool :=
  match fs (bw_binary_path sys.decky) with
  | some _ => (fs, false)
  | none => (binWrite fs (bw_binary_path sys.decky) (some (.file fetched)), true)

/-- No session is cached anywhere: the in-memory field and the `BW_SESSION`
variable are falsy, and the session file is absent or reads as blank. -/
def noCachedSession (sys : Sys) (st : PluginState) : Prop :=
  truthyOpt st.session = false ∧ truthyOpt st.envSession = false ∧
  (st.fs (session_file sys.decky) = none ∨
   ∃ bs s, st.fs (session_file sys.decky) = some bs ∧ readText bs = .ok s ∧ pyStrip s = "")

/-! ## Concrete fixtures for evaluation -/

/-- A concrete host environment. -/
def decky0 : DeckyEnv := ⟨"plug", "run", "set", "user"⟩

/-- The openssl environment where the tool is unavailable (base64 fallback
everywhere). -/
def openssl0 : OpensslEnv := ⟨fun _ => none, fun _ => none⟩

/-- A concrete world where `bw` exists, every run exits 0 with empty output,
and JSON parsing yields an empty object. -/
def sys0 : Sys := ⟨decky0, true, fun _ _ _ => .exit 0 "" "", openssl0, fun _ => some (.pyDict [])⟩

/-- The empty plugin state. -/
def st0 : PluginState := ⟨none, none, none, none, none, fun _ => none, []⟩

/-- A concrete world where every `bw` run exits 0 with stdout "x". -/
def sysC : Sys := ⟨decky0, true, fun _ _ _ => .exit 0 "x" "", openssl0, fun _ => some (.pyDict [])⟩

/-- The empty state with an in-memory session. -/
def stC : PluginState := ⟨none, none, some "S", none, none, fun _ => none, []⟩

/-- A concrete world where every `bw` run exits 1 with stderr "boom". -/
def sysF : Sys := ⟨decky0, true, fun _ _ _ => .exit 1 "" "boom", openssl0, fun _ => some (.pyDict [])⟩

/-- A concrete world where spawning `bw` raises. -/
def sysR : Sys := ⟨decky0, true, fun _ _ _ => .raise, openssl0, fun _ => some (.pyDict [])⟩

/-- The empty state except for an email file holding "a". -/
def stA : PluginState :=
  ⟨none, none, none, none, none,
   fsWrite (fun _ => none) (email_file decky0) (some (utf8EncodeStr "a")), []⟩

/-- The empty state except for an email file holding "b". -/
def stB : PluginState :=
  ⟨none, none, none, none, none,
   fsWrite (fun _ => none) (email_file decky0) (some (utf8EncodeStr "b")), []⟩

/-- A failure payload of the shape the spec describes: exactly
`{"success": False, "error": msg}` — or that with the subprocess exit code
appended, as `_run_bw` builds it. -/
def failurePayloadOk (d : Dict) : Prop :=
  (∃ s, d = [("success", .pyBool false), ("error", .pyStr s)]) ∨
  (∃ s c, d = [("success", .pyBool false), ("error", .pyStr s), ("code", .pyInt c)])

/-! ## Codec theorems -/

theorem utf8EncodeCp_byte_lt (c : Nat) (hc : c < 0x110000) :
    ∀ b ∈ utf8EncodeCp c, b < 256 := by
  intro b hb
  unfold utf8EncodeCp at hb
  split at hb
  · simp only [List.mem_singleton] at hb
    omega
  · split at hb
    · simp only [List.mem_cons, List.not_mem_nil, or_false] at hb
      rcases hb with h | h <;> omega
    · split at hb
      · simp only [List.mem_cons, List.not_mem_nil, or_false] at hb
        rcases hb with h | h | h <;> omega
      · simp only [List.mem_cons, List.not_mem_nil, or_false] at hb
        rcases hb with h | h | h | h <;> omega

theorem utf8DecodeOne_enc1 (c : Nat) (h1 : c < 0x80) (bs : List Nat) :
    utf8DecodeOne c bs = some (c, 0) := by
  unfold utf8DecodeOne
  rw [if_pos h1]

theorem utf8DecodeOne_enc2 (c : Nat) (h1 : 0x80 ≤ c) (h2 : c < 0x800) (bs : List Nat) :
    utf8DecodeOne (0xC0 + c / 64) ((0x80 + c % 64) :: bs) = some (c, 1) := by
  unfold utf8DecodeOne
  rw [if_neg (by omega), if_neg (by omega), if_pos (by omega)]
  show (if 0x80 ≤ 0x80 + c % 64 ∧ 0x80 + c % 64 < 0xC0 then
      some ((0xC0 + c / 64 - 0xC0) * 64 + (0x80 + c % 64 - 0x80), 1) else none) = some (c, 1)
  rw [if_pos (by constructor <;> omega)]
  have hv : (0xC0 + c / 64 - 0xC0) * 64 + (0x80 + c % 64 - 0x80) = c := by omega
  rw [hv]

theorem utf8DecodeOne_enc3 (c : Nat) (h1 : 0x800 ≤ c) (h2 : c < 0x10000)
    (hs : ¬ (0xD800 ≤ c ∧ c < 0xE000)) (bs : List Nat) :
    utf8DecodeOne (0xE0 + c / 4096) ((0x80 + c / 64 % 64) :: (0x80 + c % 64) :: bs)
      = some (c, 2) := by
  unfold utf8DecodeOne
  rw [if_neg (by omega), if_neg (by omega), if_neg (by omega), if_pos (by omega)]
  show (if 0x80 ≤ 0x80 + c / 64 % 64 ∧ 0x80 + c / 64 % 64 < 0xC0 ∧
          0x80 ≤ 0x80 + c % 64 ∧ 0x80 + c % 64 < 0xC0 then
      (if (0xE0 + c / 4096 - 0xE0) * 4096 + (0x80 + c / 64 % 64 - 0x80) * 64 +
            (0x80 + c % 64 - 0x80) < 0x800 ∨
          (0xD800 ≤ (0xE0 + c / 4096 - 0xE0) * 4096 + (0x80 + c / 64 % 64 - 0x80) * 64 +
            (0x80 + c % 64 - 0x80) ∧
           (0xE0 + c / 4096 - 0xE0) * 4096 + (0x80 + c / 64 % 64 - 0x80) * 64 +
            (0x80 + c % 64 - 0x80) < 0xE000) then none
        else some ((0xE0 + c / 4096 - 0xE0) * 4096 + (0x80 + c / 64 % 64 - 0x80) * 64 +
            (0x80 + c % 64 - 0x80), 2)) else none) = some (c, 2)
  have hv : (0xE0 + c / 4096 - 0xE0) * 4096 + (0x80 + c / 64 % 64 - 0x80) * 64 +
      (0x80 + c % 64 - 0x80) = c := by omega
  rw [if_pos (by refine ⟨by omega, by omega, by omega, by omega⟩), hv, if_neg (by omega)]

theorem utf8DecodeOne_enc4 (c : Nat) (h1 : 0x10000 ≤ c) (h2 : c < 0x110000) (bs : List Nat) :
    utf8DecodeOne (0xF0 + c / 262144)
      ((0x80 + c / 4096 % 64) :: (0x80 + c / 64 % 64) :: (0x80 + c % 64) :: bs)
      = some (c, 3) := by
  unfold utf8DecodeOne
  rw [if_neg (by omega), if_neg (by omega), if_neg (by omega), if_neg (by omega),
    if_pos (by omega)]
  show (if 0x80 ≤ 0x80 + c / 4096 % 64 ∧ 0x80 + c / 4096 % 64 < 0xC0 ∧
          0x80 ≤ 0x80 + c / 64 % 64 ∧ 0x80 + c / 64 % 64 < 0xC0 ∧
          0x80 ≤ 0x80 + c % 64 ∧ 0x80 + c % 64 < 0xC0 then
      (if (0xF0 + c / 262144 - 0xF0) * 262144 + (0x80 + c / 4096 % 64 - 0x80) * 4096 +
            (0x80 + c / 64 % 64 - 0x80) * 64 + (0x80 + c % 64 - 0x80) < 0x10000 ∨
          0x110000 ≤ (0xF0 + c / 262144 - 0xF0) * 262144 + (0x80 + c / 4096 % 64 - 0x80) * 4096 +
            (0x80 + c / 64 % 64 - 0x80) * 64 + (0x80 + c % 64 - 0x80) then none
        else some ((0xF0 + c / 262144 - 0xF0) * 262144 + (0x80 + c / 4096 % 64 - 0x80) * 4096 +
            (0x80 + c / 64 % 64 - 0x80) * 64 + (0x80 + c % 64 - 0x80), 3)) else none)
      = some (c, 3)
  have hv : (0xF0 + c / 262144 - 0xF0) * 262144 + (0x80 + c / 4096 % 64 - 0x80) * 4096 +
      (0x80 + c / 64 % 64 - 0x80) * 64 + (0x80 + c % 64 - 0x80) = c := by omega
  rw [if_pos (by refine ⟨by omega, by omega, by omega, by omega, by omega, by omega⟩), hv,
    if_neg (by omega)]

theorem utf8DecodeCps_encode_one (c : Nat) (hc : isScalar c) (bs : List Nat) :
    utf8DecodeCps (utf8EncodeCp c ++ bs) = (utf8DecodeCps bs).map (c :: ·) := by
  rcases Nat.lt_or_ge c 0x80 with h1 | h1
  · have he : utf8EncodeCp c = [c] := by
      unfold utf8EncodeCp
      rw [if_pos h1]
    rw [he]
    show utf8DecodeCps (c :: bs) = _
    simp only [utf8DecodeCps]
    rw [utf8DecodeOne_enc1 c h1]
    simp
  · rcases Nat.lt_or_ge c 0x800 with h2 | h2
    · have he : utf8EncodeCp c = [0xC0 + c / 64, 0x80 + c % 64] := by
        unfold utf8EncodeCp
        rw [if_neg (by omega), if_pos h2]
      rw [he]
      show utf8DecodeCps ((0xC0 + c / 64) :: (0x80 + c % 64) :: bs) = _
      simp only [utf8DecodeCps]
      rw [utf8DecodeOne_enc2 c h1 h2]
      simp
    · rcases Nat.lt_or_ge c 0x10000 with h3 | h3
      · have hns : ¬ (0xD800 ≤ c ∧ c < 0xE000) := by
          unfold isScalar at hc
          omega
        have he : utf8EncodeCp c = [0xE0 + c / 4096, 0x80 + c / 64 % 64, 0x80 + c % 64] := by
          unfold utf8EncodeCp
          rw [if_neg (by omega), if_neg (by omega), if_pos h3]
        rw [he]
        show utf8DecodeCps
          ((0xE0 + c / 4096) :: (0x80 + c / 64 % 64) :: (0x80 + c % 64) :: bs) = _
        simp only [utf8DecodeCps]
        rw [utf8DecodeOne_enc3 c h2 h3 hns]
        simp
      · have hc' : c < 0x110000 := by
          unfold isScalar at hc
          omega
        have he : utf8EncodeCp c =
            [0xF0 + c / 262144, 0x80 + c / 4096 % 64, 0x80 + c / 64 % 64, 0x80 + c % 64] := by
          unfold utf8EncodeCp
          rw [if_neg (by omega), if_neg (by omega), if_neg (by omega)]
        rw [he]
        show utf8DecodeCps ((0xF0 + c / 262144) :: (0x80 + c / 4096 % 64) ::
          (0x80 + c / 64 % 64) :: (0x80 + c % 64) :: bs) = _
        simp only [utf8DecodeCps]
        rw [utf8DecodeOne_enc4 c h3 hc']
        simp

theorem utf8DecodeCps_utf8EncodeCps (cps : List Nat) (h : ∀ c ∈ cps, isScalar c) :
    utf8DecodeCps (utf8EncodeCps cps) = some cps := by
  induction cps with
  | nil => simp [utf8EncodeCps, utf8DecodeCps]
  | cons c cs ih =>
    have hc : isScalar c := h c (List.mem_cons_self c cs)
    have hcs : ∀ x ∈ cs, isScalar x := fun x hx => h x (List.mem_cons_of_mem c hx)
    show utf8DecodeCps (utf8EncodeCp c ++ utf8EncodeCps cs) = _
    rw [utf8DecodeCps_encode_one c hc, ih hcs]
    rfl

theorem char_isScalar (c : Char) : isScalar c.toNat := by
  show isScalar c.val.toNat
  rcases c.valid with h | h
  · exact Or.inl (@UInt32.toNat_lt_of_lt c.val 0xD800 (by decide) h)
  · have hl := @UInt32.lt_toNat_of_lt c.val 0xDFFF (by decide) h.1
    have hr := @UInt32.toNat_lt_of_lt c.val 0x110000 (by decide) h.2
    exact Or.inr ⟨by omega, hr⟩

theorem utf8DecodeCps_utf8EncodeStr (s : String) :
    utf8DecodeCps (utf8EncodeStr s) = some (s.data.map Char.toNat) := by
  unfold utf8EncodeStr
  exact utf8DecodeCps_utf8EncodeCps _ (by
    intro c hc
    rcases List.mem_map.mp hc with ⟨ch, _, rfl⟩
    exact char_isScalar ch)

theorem strOfCps_map_toNat (s : String) : strOfCps (s.data.map Char.toNat) = s := by
  unfold strOfCps
  simp only [List.map_map]
  cases s with
  | mk data =>
    congr 1
    calc data.map (Char.ofNat ∘ Char.toNat)
        = data.map id := List.map_congr_left (fun ch _ => Char.ofNat_toNat ch)
      _ = data := List.map_id data

theorem readText_utf8EncodeStr (s : String) : readText (utf8EncodeStr s) = .ok s := by
  simp only [readText, utf8DecodeCps_utf8EncodeStr, strOfCps_map_toNat]

theorem utf8EncodeStr_byte_lt (s : String) : ∀ b ∈ utf8EncodeStr s, b < 256 := by
  intro b hb
  unfold utf8EncodeStr utf8EncodeCps at hb
  rcases List.mem_flatMap.mp hb with ⟨c, hc, hbc⟩
  rcases List.mem_map.mp hc with ⟨ch, _, rfl⟩
  have := char_isScalar ch
  unfold isScalar at this
  exact utf8EncodeCp_byte_lt _ (by omega) b hbc

theorem b64CharDec_b64Char : ∀ n < 64, b64CharDec (b64Char n) = some n := by decide

theorem b64Char_ne_pad : ∀ n < 64, b64Char n ≠ 61 := by decide

theorem b64DecodeQuad_enc1 (a : Nat) (ha : a < 256) :
    b64DecodeQuad (b64Char (a / 4)) (b64Char (a % 4 * 16)) 61 61 = some ([a], true) := by
  unfold b64DecodeQuad
  rw [b64CharDec_b64Char (a / 4) (by omega), b64CharDec_b64Char (a % 4 * 16) (by omega)]
  simp only [if_pos rfl]
  simp
  omega

theorem b64DecodeQuad_enc2 (a b : Nat) (ha : a < 256) (hb : b < 256) :
    b64DecodeQuad (b64Char (a / 4)) (b64Char (a % 4 * 16 + b / 16)) (b64Char (b % 16 * 4)) 61
      = some ([a, b], true) := by
  unfold b64DecodeQuad
  rw [b64CharDec_b64Char (a / 4) (by omega), b64CharDec_b64Char (a % 4 * 16 + b / 16) (by omega)]
  have h3 : b64Char (b % 16 * 4) ≠ 61 := b64Char_ne_pad _ (by omega)
  have e3 : b64CharDec (b64Char (b % 16 * 4)) = some (b % 16 * 4) :=
    b64CharDec_b64Char _ (by omega)
  simp [h3, e3]
  omega

theorem b64DecodeQuad_enc3 (a b c : Nat) (ha : a < 256) (hb : b < 256) (hc : c < 256) :
    b64DecodeQuad (b64Char (a / 4)) (b64Char (a % 4 * 16 + b / 16))
      (b64Char (b % 16 * 4 + c / 64)) (b64Char (c % 64)) = some ([a, b, c], false) := by
  unfold b64DecodeQuad
  rw [b64CharDec_b64Char (a / 4) (by omega), b64CharDec_b64Char (a % 4 * 16 + b / 16) (by omega)]
  have h3 : b64Char (b % 16 * 4 + c / 64) ≠ 61 := b64Char_ne_pad _ (by omega)
  have e3 : b64CharDec (b64Char (b % 16 * 4 + c / 64)) = some (b % 16 * 4 + c / 64) :=
    b64CharDec_b64Char _ (by omega)
  have h4 : b64Char (c % 64) ≠ 61 := b64Char_ne_pad _ (by omega)
  have e4 : b64CharDec (b64Char (c % 64)) = some (c % 64) :=
    b64CharDec_b64Char _ (by omega)
  simp [h3, e3, h4, e4]
  omega

theorem b64Decode_b64Encode : ∀ bs : List Nat, (∀ x ∈ bs, x < 256) →
    b64Decode (b64Encode bs) = some bs
  | [], _ => rfl
  | [a], h => by
    have ha : a < 256 := h a (by simp)
    simp [b64Encode, b64Decode, b64DecodeQuad_enc1 a ha]
  | [a, b], h => by
    have ha : a < 256 := h a (by simp)
    have hb : b < 256 := h b (by simp)
    simp [b64Encode, b64Decode, b64DecodeQuad_enc2 a b ha hb]
  | a :: b :: c :: rest, h => by
    have ha : a < 256 := h a (by simp)
    have hb : b < 256 := h b (by simp)
    have hc : c < 256 := h c (by simp)
    have ih := b64Decode_b64Encode rest (fun x hx => h x (by simp [hx]))
    simp [b64Encode, b64Decode, b64DecodeQuad_enc3 a b c ha hb hc, ih]

/-! ## Claim theorems -/

/-- C1: the password obfuscation step is reversible — for every password
string `p`, in each consistent environment (openssl succeeding and
invertible for both directions, or unavailable/failing for both so the
base64 fallback is used for both), `_decrypt_password (_encrypt_password p)`
yields `p` back. -/
theorem C1_encrypt_decrypt_roundtrip (env : OpensslEnv) (p : String)
    (h : consistentOpenssl env) :
    decrypt_password env (encrypt_password env p) = .ok (some p) := by
  rcases h with ⟨henc, hdec⟩ | hinv
  · simp only [encrypt_password, decrypt_password, henc, hdec,
      b64Decode_b64Encode _ (utf8EncodeStr_byte_lt p),
      utf8DecodeCps_utf8EncodeStr, strOfCps_map_toNat]
  · obtain ⟨ct, hct, hback⟩ := hinv (utf8EncodeStr p)
    simp only [encrypt_password, decrypt_password, hct, hback,
      utf8DecodeCps_utf8EncodeStr, strOfCps_map_toNat]

/-- Witness for C1: the concrete base64-fallback environment and the
password "pw". -/
theorem C1_witness :
    decrypt_password ⟨fun _ => none, fun _ => none⟩
      (encrypt_password ⟨fun _ => none, fun _ => none⟩ "pw") = .ok (some "pw") :=
  C1_encrypt_decrypt_roundtrip ⟨fun _ => none, fun _ => none⟩ "pw"
    (Or.inl ⟨fun _ => rfl, fun _ => rfl⟩)

/-- C3: when openssl is unavailable or fails for the given input,
`_encrypt_password` returns the base64 encoding of the UTF-8 password bytes,
and `_decrypt_password` base64-decodes its input (then UTF-8-decodes),
returning `None` when that decoding fails. -/
theorem C3_base64_fallback (env : OpensslEnv) (p : String) (data : List Nat)
    (henc : env.encResult (utf8EncodeStr p) = none)
    (hdec : env.decResult data = none) :
    encrypt_password env p = b64Encode (utf8EncodeStr p) ∧
    decrypt_password env data =
      .ok ((b64Decode data).bind (fun bs => (utf8DecodeCps bs).map strOfCps)) ∧
    (b64Decode data = none → decrypt_password env data = .ok none) := by
  refine ⟨?_, ?_, ?_⟩
  · unfold encrypt_password
    rw [henc]
  · simp only [decrypt_password, hdec]
    cases hb : b64Decode data with
    | none => rfl
    | some bs =>
      cases hc : utf8DecodeCps bs with
      | none => simp [hc]
      | some cps => simp [hc]
  · intro hb
    unfold decrypt_password
    rw [hdec, hb]

/-- Witness for C3: the environment where openssl always fails, the password
"pw", and the non-base64 input `[33]` (an ASCII `!`), on which decoding
fails and `None` comes back. -/
theorem C3_witness :
    encrypt_password ⟨fun _ => none, fun _ => none⟩ "pw" =
      b64Encode (utf8EncodeStr "pw") ∧
    decrypt_password ⟨fun _ => none, fun _ => none⟩ [33] =
      .ok ((b64Decode [33]).bind (fun bs => (utf8DecodeCps bs).map strOfCps)) ∧
    (b64Decode [33] = none →
      decrypt_password ⟨fun _ => none, fun _ => none⟩ [33] = .ok none) :=
  C3_base64_fallback ⟨fun _ => none, fun _ => none⟩ "pw" [33] rfl rfl

/-- C4: the master password and the account email are persisted and can be
read back — for non-empty `p`, `save_password p` succeeds, writes the
obfuscated password to the password file, and `get_saved_password_status`
then answers `{"saved": True, "password": p}`; for `e` with non-empty strip,
`save_email e` succeeds, writes the stripped email to the email file, and
`get_saved_email_status` answers saved/stripped email. -/
theorem C4_save_and_read_back (sys : Sys) (st : PluginState) (p e : String)
    (hp : ¬ p.isEmpty = true) (he : ¬ (pyStrip e).isEmpty = true) :
    (save_password sys st p).1 = [("success", .pyBool true)] ∧
    get_saved_password_status sys (save_password sys st p).2 =
      .ok ([("saved", .pyBool true), ("password", .pyStr p)], (save_password sys st p).2) ∧
    (save_password sys st p).2.fs (password_file sys.decky) =
      some (encrypt_password sys.openssl p) ∧
    (save_email sys st e).1 = [("success", .pyBool true)] ∧
    get_saved_email_status sys (save_email sys st e).2 =
      .ok ([("saved", .pyBool true), ("email", .pyStr (pyStrip e))], (save_email sys st e).2) ∧
    (save_email sys st e).2.fs (email_file sys.decky) = some (utf8EncodeStr (pyStrip e)) := by
  refine ⟨?_, ?_, ?_, ?_, ?_, ?_⟩
  · simp [save_password, hp]
  · simp [save_password, hp, get_saved_password_status]
  · simp [save_password, hp, fsWrite]
  · simp [save_email, he]
  · simp [save_email, he, get_saved_email_status]
  · simp [save_email, he, fsWrite]

/-- Witness for C4: reading back the password "pw" and the email " a@b "
after saving them into the empty state. -/
theorem C4_witness :
    get_saved_password_status sys0 (save_password sys0 st0 "pw").2 =
      .ok ([("saved", .pyBool true), ("password", .pyStr "pw")],
        (save_password sys0 st0 "pw").2) ∧
    get_saved_email_status sys0 (save_email sys0 st0 " a@b ").2 =
      .ok ([("saved", .pyBool true), ("email", .pyStr (pyStrip " a@b "))],
        (save_email sys0 st0 " a@b ").2) :=
  ⟨(C4_save_and_read_back sys0 st0 "pw" " a@b " (by decide) (by decide)).2.1,
   (C4_save_and_read_back sys0 st0 "pw" " a@b " (by decide) (by decide)).2.2.2.2.1⟩

/-! ## Helper lemmas about paths, files and sessions -/

theorem password_file_ne_session_file (d : DeckyEnv) : password_file d ≠ session_file d := by
  simp [password_file, session_file]

theorem email_file_ne_session_file (d : DeckyEnv) : email_file d ≠ session_file d := by
  simp [email_file, session_file]

theorem fsWrite_ne (fs : Fs) (p q : FsPath) (v : Option (List Nat)) (h : q ≠ p) :
    fsWrite fs p v q = fs q := by
  simp [fsWrite, h]

theorem get_cached_session_none (sys : Sys) (st : PluginState) (h : noCachedSession sys st) :
    get_cached_session sys st = .ok (none, st) := by
  obtain ⟨h1, h2, h3⟩ := h
  rcases h3 with hf | ⟨bs, s, hf, hr, hs⟩
  · simp [get_cached_session, h1, h2, hf]
  · simp [get_cached_session, h1, h2, hf, hr, hs]
    rfl

theorem clear_saved_session_clears (sys : Sys) (st : PluginState) :
    (clear_saved_session sys st).session = none ∧
    (clear_saved_session sys st).envSession = none ∧
    (clear_saved_session sys st).fs (session_file sys.decky) = none := by
  refine ⟨rfl, rfl, ?_⟩
  simp [clear_saved_session, fsWrite]

/-- C8: every session-requiring operation refuses without spawning `bw` when
no session is cached anywhere — `bw_sync`, `bw_list_items` with a non-blank
search and `bw_get_item` with a non-blank item id all return the
"No active session" failure with the state unchanged (in particular the
spawn trace is unchanged, so `bw` was not invoked); and `bw_list_items` with
a blank search returns `{"success": True, "items": []}` with the state
unchanged, also without invoking `bw`. -/
theorem C8_session_gating (sys : Sys) (st : PluginState) (search item_id : String)
    (h : noCachedSession sys st)
    (hs : ¬ (pyStrip search).isEmpty = true)
    (hi : ¬ (pyStrip item_id).isEmpty = true) :
    bw_sync sys st =
      .ok ([("success", .pyBool false), ("error", .pyStr "No active session. Please login.")], st) ∧
    bw_list_items sys st search =
      .ok ([("success", .pyBool false), ("error", .pyStr "No active session. Please login.")], st) ∧
    bw_get_item sys st item_id =
      .ok ([("success", .pyBool false), ("error", .pyStr "No active session. Please login.")], st) ∧
    (∀ s', (pyStrip s').isEmpty = true →
      bw_list_items sys st s' = .ok ([("success", .pyBool true), ("items", .pyList [])], st)) := by
  have hgc := get_cached_session_none sys st h
  refine ⟨?_, ?_, ?_, ?_⟩
  · simp [bw_sync, hgc, truthyOpt]
  · simp [bw_list_items, hs, hgc, truthyOpt]
  · simp [bw_get_item, hi, hgc, truthyOpt]
  · intro s' hs'
    simp [bw_list_items, hs']

/-- Witness for C8: the empty state, a one-letter search and item id, and a
blank search. -/
theorem C8_witness :
    bw_sync sys0 st0 =
      .ok ([("success", .pyBool false), ("error", .pyStr "No active session. Please login.")], st0) ∧
    bw_list_items sys0 st0 " " =
      .ok ([("success", .pyBool true), ("items", .pyList [])], st0) :=
  ⟨(C8_session_gating sys0 st0 "q" "i" ⟨rfl, rfl, Or.inl rfl⟩ (by decide) (by decide)).1,
   (C8_session_gating sys0 st0 "q" "i" ⟨rfl, rfl, Or.inl rfl⟩ (by decide) (by decide)).2.2.2
     " " (by decide)⟩

/-- C9: `bw_lock` and `bw_logout` clear all three session caches (memory,
`BW_SESSION`, session file) whenever they return a result, whether the `bw`
subprocess succeeded or failed. -/
theorem C9_lock_logout_clear_sessions (sys : Sys) (st : PluginState) :
    (∀ d st', bw_lock sys st = .ok (d, st') →
       st'.session = none ∧ st'.envSession = none ∧
       st'.fs (session_file sys.decky) = none) ∧
    (∀ d st', bw_logout sys st = .ok (d, st') →
       st'.session = none ∧ st'.envSession = none ∧
       st'.fs (session_file sys.decky) = none) := by
  constructor
  · intro d st' h
    unfold bw_lock at h
    split at h
    · simp at h
    · split at h
      · simp at h
      · rename_i result st2 _
        split at h <;>
        · simp only [Except.ok.injEq, Prod.mk.injEq] at h
          obtain ⟨-, hst⟩ := h
          subst hst
          exact clear_saved_session_clears sys st2
  · intro d st' h
    unfold bw_logout at h
    split at h
    · simp at h
    · split at h
      · simp at h
      · rename_i result st2 _
        have hfinal :
            ((clear_saved_email sys (clear_saved_password sys
              (clear_saved_session sys st2)).2).2).session = none ∧
            ((clear_saved_email sys (clear_saved_password sys
              (clear_saved_session sys st2)).2).2).envSession = none ∧
            ((clear_saved_email sys (clear_saved_password sys
              (clear_saved_session sys st2)).2).2).fs (session_file sys.decky) = none := by
          refine ⟨rfl, rfl, ?_⟩
          show fsWrite _ (email_file sys.decky) none (session_file sys.decky) = none
          rw [fsWrite_ne _ _ _ _ (fun hq => email_file_ne_session_file sys.decky hq.symm)]
          show fsWrite _ (password_file sys.decky) none (session_file sys.decky) = none
          rw [fsWrite_ne _ _ _ _ (fun hq => password_file_ne_session_file sys.decky hq.symm)]
          exact (clear_saved_session_clears sys st2).2.2
        split at h <;>
        · simp only [Except.ok.injEq, Prod.mk.injEq] at h
          obtain ⟨-, hst⟩ := h
          subst hst
          exact hfinal

/-- Witness for C9: locking from the empty state (where `bw lock` exits 0)
leaves no cached session in the state `bw_lock` returns. -/
theorem C9_witness :
    (clear_saved_session sys0 { st0 with spawned := [["lock"]] }).session = none ∧
    (clear_saved_session sys0 { st0 with spawned := [["lock"]] }).envSession = none ∧
    (clear_saved_session sys0 { st0 with spawned := [["lock"]] }).fs
      (session_file sys0.decky) = none :=
  (C9_lock_logout_clear_sessions sys0 st0).1 [("success", .pyBool true)]
    (clear_saved_session sys0 { st0 with spawned := [["lock"]] }) (by rfl)

/-! ## Subprocess counting -/

theorem run_bw_spawn_le (sys : Sys) (st : PluginState) (args : List String)
    (input : Option String) (session : Option String) :
    ∀ d st', run_bw sys st args input session = .ok (d, st') →
      st.spawned.length ≤ st'.spawned.length ∧
      st'.spawned.length ≤ st.spawned.length + 1 := by
  intro d st' h
  unfold run_bw at h
  split at h
  · simp only [Except.ok.injEq, Prod.mk.injEq] at h
    obtain ⟨-, hst⟩ := h
    subst hst
    omega
  · split at h
    · simp at h
    · split at h <;>
      · simp only [Except.ok.injEq, Prod.mk.injEq] at h
        obtain ⟨-, hst⟩ := h
        subst hst
        simp

theorem get_cached_session_spawned (sys : Sys) (st : PluginState) :
    ∀ v st1, get_cached_session sys st = .ok (v, st1) → st1.spawned = st.spawned := by
  intro v st1 h
  simp only [get_cached_session] at h
  split at h <;> try split at h <;> try split at h <;> try split at h <;> try split at h
  all_goals try simp only [Except.ok.injEq, Prod.mk.injEq] at h
  all_goals first
    | simp at h
    | (obtain ⟨-, hst⟩ := h
       subst hst
       rfl)

theorem bw_status_spawn_le (sys : Sys) (st : PluginState) :
    ∀ d st', bw_status sys st = .ok (d, st') →
      st'.spawned.length ≤ st.spawned.length + 1 := by
  intro d st' h
  unfold bw_status at h
  split at h
  · simp at h
  · rename_i result st1 hrb
    have hb := run_bw_spawn_le sys st ["status"] none none result st1 hrb
    split at h <;> try split at h
    all_goals
      simp only [Except.ok.injEq, Prod.mk.injEq] at h
    all_goals
      obtain ⟨-, hst⟩ := h
    all_goals subst hst
    all_goals omega

theorem bw_sync_spawn_le (sys : Sys) (st : PluginState) :
    ∀ d st', bw_sync sys st = .ok (d, st') →
      st'.spawned.length ≤ st.spawned.length + 1 := by
  intro d st' h
  unfold bw_sync at h
  split at h
  · simp at h
  · rename_i sess st1 hgc
    have hg : st1.spawned.length = st.spawned.length := by
      rw [get_cached_session_spawned sys st sess st1 hgc]
    split at h
    · simp only [Except.ok.injEq, Prod.mk.injEq] at h
      obtain ⟨-, hst⟩ := h
      subst hst
      omega
    · split at h
      · simp at h
      · rename_i result st2 hrb
        have hb := run_bw_spawn_le sys st1 ["sync"] none sess result st2 hrb
        split at h <;>
        · simp only [Except.ok.injEq, Prod.mk.injEq] at h
          obtain ⟨-, hst⟩ := h
          subst hst
          omega

theorem bw_list_items_spawn_le (sys : Sys) (st : PluginState) (search : String) :
    ∀ d st', bw_list_items sys st search = .ok (d, st') →
      st'.spawned.length ≤ st.spawned.length + 1 := by
  intro d st' h
  simp only [bw_list_items] at h
  split at h
  · simp only [Except.ok.injEq, Prod.mk.injEq] at h
    obtain ⟨-, hst⟩ := h
    subst hst
    omega
  · split at h
    · simp at h
    · rename_i sess st1 hgc
      have hg : st1.spawned.length = st.spawned.length := by
        rw [get_cached_session_spawned sys st sess st1 hgc]
      split at h
      · simp only [Except.ok.injEq, Prod.mk.injEq] at h
        obtain ⟨-, hst⟩ := h
        subst hst
        omega
      · split at h
        · simp at h
        · rename_i result st2 hrb
          have hb := run_bw_spawn_le sys st1 _ none sess result st2 hrb
          split at h
          · simp only [Except.ok.injEq, Prod.mk.injEq] at h
            obtain ⟨-, hst⟩ := h
            subst hst
            omega
          · split at h <;>
            · simp only [Except.ok.injEq, Prod.mk.injEq] at h
              obtain ⟨-, hst⟩ := h
              subst hst
              omega

theorem bw_config_server_spawn_le (sys : Sys) (st : PluginState) (server : String) :
    ∀ d st', bw_config_server sys st server = .ok (d, st') →
      st'.spawned.length ≤ st.spawned.length + 1 := by
  intro d st' h
  simp only [bw_config_server] at h
  split at h
  · simp only [Except.ok.injEq, Prod.mk.injEq] at h
    obtain ⟨-, hst⟩ := h
    subst hst
    omega
  · split at h
    · simp at h
    · rename_i result st1 hrb
      have hb := run_bw_spawn_le sys st _ none none result st1 hrb
      split at h <;>
      · simp only [Except.ok.injEq, Prod.mk.injEq] at h
        obtain ⟨-, hst⟩ := h
        subst hst
        omega

theorem bw_lock_spawn_le (sys : Sys) (st : PluginState) :
    ∀ d st', bw_lock sys st = .ok (d, st') →
      st'.spawned.length ≤ st.spawned.length + 1 := by
  intro d st' h
  unfold bw_lock at h
  split at h
  · simp at h
  · rename_i sess st1 hgc
    have hg : st1.spawned.length = st.spawned.length := by
      rw [get_cached_session_spawned sys st sess st1 hgc]
    split at h
    · simp at h
    · rename_i result st2 hrb
      have hb := run_bw_spawn_le sys st1 ["lock"] none sess result st2 hrb
      have hc : (clear_saved_session sys st2).spawned.length = st2.spawned.length := rfl
      split at h <;>
      · simp only [Except.ok.injEq, Prod.mk.injEq] at h
        obtain ⟨-, hst⟩ := h
        subst hst
        omega

theorem bw_logout_spawn_le (sys : Sys) (st : PluginState) :
    ∀ d st', bw_logout sys st = .ok (d, st') →
      st'.spawned.length ≤ st.spawned.length + 1 := by
  intro d st' h
  unfold bw_logout at h
  split at h
  · simp at h
  · rename_i sess st1 hgc
    have hg : st1.spawned.length = st.spawned.length := by
      rw [get_cached_session_spawned sys st sess st1 hgc]
    split at h
    · simp at h
    · rename_i result st2 hrb
      have hb := run_bw_spawn_le sys st1 ["logout"] none sess result st2 hrb
      have hc : ((clear_saved_email sys (clear_saved_password sys
          (clear_saved_session sys st2)).2).2).spawned.length = st2.spawned.length := rfl
      split at h <;>
      · simp only [Except.ok.injEq, Prod.mk.injEq] at h
        obtain ⟨-, hst⟩ := h
        subst hst
        omega

theorem bw_get_item_spawn_le (sys : Sys) (st : PluginState) (item_id : String) :
    ∀ d st', bw_get_item sys st item_id = .ok (d, st') →
      st'.spawned.length ≤ st.spawned.length + 2 := by
  intro d st' h
  simp only [bw_get_item] at h
  split at h
  · simp only [Except.ok.injEq, Prod.mk.injEq] at h
    obtain ⟨-, hst⟩ := h
    subst hst
    omega
  · split at h
    · simp at h
    · rename_i sess st1 hgc
      have hg : st1.spawned.length = st.spawned.length := by
        rw [get_cached_session_spawned sys st sess st1 hgc]
      split at h
      · simp only [Except.ok.injEq, Prod.mk.injEq] at h
        obtain ⟨-, hst⟩ := h
        subst hst
        omega
      · split at h
        · simp at h
        · rename_i result st2 hrb
          have hb := run_bw_spawn_le sys st1 _ none sess result st2 hrb
          split at h
          · simp only [Except.ok.injEq, Prod.mk.injEq] at h
            obtain ⟨-, hst⟩ := h
            subst hst
            omega
          · split at h
            · simp only [Except.ok.injEq, Prod.mk.injEq] at h
              obtain ⟨-, hst⟩ := h
              subst hst
              omega
            · split at h
              · simp at h
              · rename_i totp_result st3 hrb2
                have hb2 := run_bw_spawn_le sys st2 _ none sess totp_result st3 hrb2
                simp only [Except.ok.injEq, Prod.mk.injEq] at h
                obtain ⟨-, hst⟩ := h
                subst hst
                omega

theorem unlock_and_sync_spawn_le (sys : Sys) (st : PluginState) :
    ∀ d st', unlock_and_sync sys st = .ok (d, st') →
      st'.spawned.length ≤ st.spawned.length + 2 := by
  intro d st' h
  simp only [unlock_and_sync] at h
  split at h
  · simp at h
  · rename_i unlock_result st1 hrb1
    have hb1 := run_bw_spawn_le sys st ["unlock", "--passwordenv", "BW_PASSWORD"] none none
      unlock_result st1 hrb1
    split at h
    · simp only [Except.ok.injEq, Prod.mk.injEq] at h
      obtain ⟨-, hst⟩ := h
      subst hst
      omega
    · split at h
      · simp only [Except.ok.injEq, Prod.mk.injEq] at h
        obtain ⟨-, hst⟩ := h
        subst hst
        omega
      · rename_i session hparse
        split at h
        · simp at h
        · rename_i sync_result st3 hrb2
          have hb2 := run_bw_spawn_le sys _ ["sync"] none (some session) sync_result st3 hrb2
          have hmid : (save_session sys
              { st1 with session := some session, envSession := some session }
              session).spawned.length = st1.spawned.length := rfl
          split at h <;>
          · simp only [Except.ok.injEq, Prod.mk.injEq] at h
            obtain ⟨-, hst⟩ := h
            subst hst
            omega

theorem login_and_sync_spawn_le (sys : Sys) (st : PluginState)
    (email password server : String) (totp : Option String) :
    ∀ d st', login_and_sync sys st email password server totp = .ok (d, st') →
      st'.spawned.length ≤ st.spawned.length + 5 := by
  intro d st' h
  unfold login_and_sync at h
  split at h
  · simp at h
  · rename_i config_result st1 heqc
    have hc := bw_config_server_spawn_le sys st server config_result st1 heqc
    split at h
    · simp only [Except.ok.injEq, Prod.mk.injEq] at h
      obtain ⟨-, hst⟩ := h
      subst hst
      omega
    · split at h
      · simp only [Except.ok.injEq, Prod.mk.injEq] at h
        obtain ⟨-, hst⟩ := h
        subst hst
        omega
      · split at h
        · simp at h
        · rename_i status_result st3 hrb1
          have hb1 := run_bw_spawn_le sys
            { st1 with envPassword := effectivePassword st1 (pyStrip password) }
            ["status"] none none status_result st3 hrb1
          have hmid : ({ st1 with envPassword := effectivePassword st1 (pyStrip password) }
              : PluginState).spawned.length = st1.spawned.length := rfl
          split at h
          · split at h
            · simp only [Except.ok.injEq, Prod.mk.injEq] at h
              obtain ⟨-, hst⟩ := h
              subst hst
              omega
            · split at h
              · simp at h
              · rename_i login_result st4 hrb2
                have hb2 := run_bw_spawn_le sys st3 _ none none login_result st4 hrb2
                split at h
                · simp only [Except.ok.injEq, Prod.mk.injEq] at h
                  obtain ⟨-, hst⟩ := h
                  subst hst
                  omega
                · have hu := unlock_and_sync_spawn_le sys st4 d st' h
                  omega
          · have hu := unlock_and_sync_spawn_le sys st3 d st' h
            omega

/-- Counterexample to C5: `bw_get_item` spawns two `bw` subprocesses in a
single invocation — `get item` and then `get totp` — so "no handler spawns
more than one subprocess per invocation" is false. -/
theorem C5_counterexample :
    (bw_get_item sysC stC "abc").toOption.map (fun r => r.2.spawned) =
      some [["get", "item", "abc"], ["get", "totp", "abc"]] ∧
    (bw_get_item sysC stC "abc").toOption.map (fun r => r.2.spawned.length) = some 2 := by
  constructor <;> rfl

/-- C5 as amended: every modelled handler that shells out runs its `bw`
subprocesses to completion and returns, spawning a bounded number per
invocation — at most one for `bw_status`, `bw_sync`, `bw_list_items`,
`bw_config_server`, `bw_lock` and `bw_logout`, at most two for
`bw_get_item` (item plus totp), and at most five for `login_and_sync`
(config, status, login, unlock, sync). -/
theorem C5_spawn_counts (sys : Sys) (st : PluginState)
    (search item_id email password server : String) (totp : Option String) :
    (∀ d st', bw_status sys st = .ok (d, st') →
       st'.spawned.length ≤ st.spawned.length + 1) ∧
    (∀ d st', bw_sync sys st = .ok (d, st') →
       st'.spawned.length ≤ st.spawned.length + 1) ∧
    (∀ d st', bw_list_items sys st search = .ok (d, st') →
       st'.spawned.length ≤ st.spawned.length + 1) ∧
    (∀ d st', bw_config_server sys st server = .ok (d, st') →
       st'.spawned.length ≤ st.spawned.length + 1) ∧
    (∀ d st', bw_lock sys st = .ok (d, st') →
       st'.spawned.length ≤ st.spawned.length + 1) ∧
    (∀ d st', bw_logout sys st = .ok (d, st') →
       st'.spawned.length ≤ st.spawned.length + 1) ∧
    (∀ d st', bw_get_item sys st item_id = .ok (d, st') →
       st'.spawned.length ≤ st.spawned.length + 2) ∧
    (∀ d st', login_and_sync sys st email password server totp = .ok (d, st') →
       st'.spawned.length ≤ st.spawned.length + 5) :=
  ⟨bw_status_spawn_le sys st, bw_sync_spawn_le sys st, bw_list_items_spawn_le sys st search,
   bw_config_server_spawn_le sys st server, bw_lock_spawn_le sys st, bw_logout_spawn_le sys st,
   bw_get_item_spawn_le sys st item_id,
   login_and_sync_spawn_le sys st email password server totp⟩

/-- Witness for C5 as amended: `bw_status` from the empty state spawns one
process. -/
theorem C5_witness :
    ({ st0 with spawned := [["status"]] } : PluginState).spawned.length ≤
      st0.spawned.length + 1 :=
  (C5_spawn_counts sys0 st0 "q" "i" "e" "p" "us" none).1
    [("success", .pyBool true), ("status", .pyDict [])]
    { st0 with spawned := [["status"]] } (by rfl)

/-! ## Failure payload shapes -/

theorem run_bw_payload (sys : Sys) (st : PluginState) (args : List String)
    (input : Option String) (session : Option String) :
    ∀ d st', run_bw sys st args input session = .ok (d, st') →
      resFailed d = true → failurePayloadOk d := by
  intro d st' h hf
  unfold run_bw at h
  split at h
  · simp only [Except.ok.injEq, Prod.mk.injEq] at h
    obtain ⟨hd, -⟩ := h
    subst hd
    exact Or.inl ⟨_, rfl⟩
  · split at h
    · simp at h
    · split at h
      · simp only [Except.ok.injEq, Prod.mk.injEq] at h
        obtain ⟨hd, -⟩ := h
        subst hd
        exact Or.inr ⟨_, _, rfl⟩
      · simp only [Except.ok.injEq, Prod.mk.injEq] at h
        obtain ⟨hd, -⟩ := h
        subst hd
        simp [resFailed, dGetD, dLookup, List.find?, pyTruthy] at hf

theorem bw_status_payload (sys : Sys) (st : PluginState) :
    ∀ d st', bw_status sys st = .ok (d, st') →
      resFailed d = true → failurePayloadOk d := by
  intro d st' h hf
  unfold bw_status at h
  split at h
  · simp at h
  · rename_i result st1 hrb
    split at h
    · simp only [Except.ok.injEq, Prod.mk.injEq] at h
      obtain ⟨hd, -⟩ := h
      subst hd
      exact run_bw_payload sys st ["status"] none none result st1 hrb hf
    · split at h <;>
        (simp only [Except.ok.injEq, Prod.mk.injEq] at h
         obtain ⟨hd, -⟩ := h
         subst hd)
      · exact Or.inl ⟨_, rfl⟩
      · simp [resFailed, dGetD, dLookup, List.find?, pyTruthy] at hf

theorem bw_sync_payload (sys : Sys) (st : PluginState) :
    ∀ d st', bw_sync sys st = .ok (d, st') →
      resFailed d = true → failurePayloadOk d := by
  intro d st' h hf
  unfold bw_sync at h
  split at h
  · simp at h
  · rename_i sess st1 hgc
    split at h
    · simp only [Except.ok.injEq, Prod.mk.injEq] at h
      obtain ⟨hd, -⟩ := h
      subst hd
      exact Or.inl ⟨_, rfl⟩
    · split at h
      · simp at h
      · rename_i result st2 hrb
        split at h <;>
          (simp only [Except.ok.injEq, Prod.mk.injEq] at h
           obtain ⟨hd, -⟩ := h
           subst hd)
        · exact run_bw_payload sys st1 ["sync"] none sess result st2 hrb hf
        · simp [resFailed, dGetD, dLookup, List.find?, pyTruthy] at hf

theorem save_password_payload (sys : Sys) (st : PluginState) (p : String) :
    ∀ d st', save_password sys st p = (d, st') →
      resFailed d = true → failurePayloadOk d := by
  intro d st' h hf
  unfold save_password at h
  split at h <;>
    (simp only [Prod.mk.injEq] at h
     obtain ⟨hd, -⟩ := h
     subst hd)
  · exact Or.inl ⟨_, rfl⟩
  · simp [resFailed, dGetD, dLookup, List.find?, pyTruthy] at hf

theorem save_email_payload (sys : Sys) (st : PluginState) (e : String) :
    ∀ d st', save_email sys st e = (d, st') →
      resFailed d = true → failurePayloadOk d := by
  intro d st' h hf
  simp only [save_email] at h
  split at h <;>
    (simp only [Prod.mk.injEq] at h
     obtain ⟨hd, -⟩ := h
     subst hd)
  · exact Or.inl ⟨_, rfl⟩
  · simp [resFailed, dGetD, dLookup, List.find?, pyTruthy] at hf

theorem bw_config_server_payload (sys : Sys) (st : PluginState) (server : String) :
    ∀ d st', bw_config_server sys st server = .ok (d, st') →
      resFailed d = true → failurePayloadOk d := by
  intro d st' h hf
  simp only [bw_config_server] at h
  split at h
  · simp only [Except.ok.injEq, Prod.mk.injEq] at h
    obtain ⟨hd, -⟩ := h
    subst hd
    exact Or.inl ⟨_, rfl⟩
  · split at h
    · simp at h
    · rename_i result st1 hrb
      split at h <;>
        (simp only [Except.ok.injEq, Prod.mk.injEq] at h
         obtain ⟨hd, -⟩ := h
         subst hd)
      · exact run_bw_payload sys st _ none none result st1 hrb hf
      · simp [resFailed, dGetD, dLookup, List.find?, pyTruthy] at hf

theorem bw_list_items_payload (sys : Sys) (st : PluginState) (search : String) :
    ∀ d st', bw_list_items sys st search = .ok (d, st') →
      resFailed d = true → failurePayloadOk d := by
  intro d st' h hf
  simp only [bw_list_items] at h
  split at h
  · simp only [Except.ok.injEq, Prod.mk.injEq] at h
    obtain ⟨hd, -⟩ := h
    subst hd
    simp [resFailed, dGetD, dLookup, List.find?, pyTruthy] at hf
  · split at h
    · simp at h
    · rename_i sess st1 hgc
      split at h
      · simp only [Except.ok.injEq, Prod.mk.injEq] at h
        obtain ⟨hd, -⟩ := h
        subst hd
        exact Or.inl ⟨_, rfl⟩
      · split at h
        · simp at h
        · rename_i result st2 hrb
          split at h
          · simp only [Except.ok.injEq, Prod.mk.injEq] at h
            obtain ⟨hd, -⟩ := h
            subst hd
            exact run_bw_payload sys st1 _ none sess result st2 hrb hf
          · split at h <;>
              (simp only [Except.ok.injEq, Prod.mk.injEq] at h
               obtain ⟨hd, -⟩ := h
               subst hd)
            · exact Or.inl ⟨_, rfl⟩
            · simp [resFailed, dGetD, dLookup, List.find?, pyTruthy] at hf

theorem bw_get_item_payload (sys : Sys) (st : PluginState) (item_id : String) :
    ∀ d st', bw_get_item sys st item_id = .ok (d, st') →
      resFailed d = true → failurePayloadOk d := by
  intro d st' h hf
  simp only [bw_get_item] at h
  split at h
  · simp only [Except.ok.injEq, Prod.mk.injEq] at h
    obtain ⟨hd, -⟩ := h
    subst hd
    exact Or.inl ⟨_, rfl⟩
  · split at h
    · simp at h
    · rename_i sess st1 hgc
      split at h
      · simp only [Except.ok.injEq, Prod.mk.injEq] at h
        obtain ⟨hd, -⟩ := h
        subst hd
        exact Or.inl ⟨_, rfl⟩
      · split at h
        · simp at h
        · rename_i result st2 hrb
          split at h
          · simp only [Except.ok.injEq, Prod.mk.injEq] at h
            obtain ⟨hd, -⟩ := h
            subst hd
            exact run_bw_payload sys st1 _ none sess result st2 hrb hf
          · split at h
            · simp only [Except.ok.injEq, Prod.mk.injEq] at h
              obtain ⟨hd, -⟩ := h
              subst hd
              exact Or.inl ⟨_, rfl⟩
            · split at h
              · simp at h
              · simp only [Except.ok.injEq, Prod.mk.injEq] at h
                obtain ⟨hd, -⟩ := h
                subst hd
                simp [resFailed, dGetD, dLookup, List.find?, pyTruthy] at hf

theorem bw_lock_payload (sys : Sys) (st : PluginState) :
    ∀ d st', bw_lock sys st = .ok (d, st') →
      resFailed d = true → failurePayloadOk d := by
  intro d st' h hf
  unfold bw_lock at h
  split at h
  · simp at h
  · rename_i sess st1 hgc
    split at h
    · simp at h
    · rename_i result st2 hrb
      split at h <;>
        (simp only [Except.ok.injEq, Prod.mk.injEq] at h
         obtain ⟨hd, -⟩ := h
         subst hd)
      · exact run_bw_payload sys st1 ["lock"] none sess result st2 hrb hf
      · simp [resFailed, dGetD, dLookup, List.find?, pyTruthy] at hf

theorem bw_logout_payload (sys : Sys) (st : PluginState) :
    ∀ d st', bw_logout sys st = .ok (d, st') →
      resFailed d = true → failurePayloadOk d := by
  intro d st' h hf
  unfold bw_logout at h
  split at h
  · simp at h
  · rename_i sess st1 hgc
    split at h
    · simp at h
    · rename_i result st2 hrb
      split at h <;>
        (simp only [Except.ok.injEq, Prod.mk.injEq] at h
         obtain ⟨hd, -⟩ := h
         subst hd)
      · exact run_bw_payload sys st1 ["logout"] none sess result st2 hrb hf
      · simp [resFailed, dGetD, dLookup, List.find?, pyTruthy] at hf

theorem unlock_and_sync_payload (sys : Sys) (st : PluginState) :
    ∀ d st', unlock_and_sync sys st = .ok (d, st') →
      resFailed d = true → failurePayloadOk d := by
  intro d st' h hf
  simp only [unlock_and_sync] at h
  split at h
  · simp at h
  · rename_i unlock_result st1 hrb1
    split at h
    · simp only [Except.ok.injEq, Prod.mk.injEq] at h
      obtain ⟨hd, -⟩ := h
      subst hd
      exact run_bw_payload sys st ["unlock", "--passwordenv", "BW_PASSWORD"] none none
        unlock_result st1 hrb1 hf
    · split at h
      · simp only [Except.ok.injEq, Prod.mk.injEq] at h
        obtain ⟨hd, -⟩ := h
        subst hd
        exact Or.inl ⟨_, rfl⟩
      · rename_i session hparse
        split at h
        · simp at h
        · rename_i sync_result st3 hrb2
          split at h <;>
            (simp only [Except.ok.injEq, Prod.mk.injEq] at h
             obtain ⟨hd, -⟩ := h
             subst hd)
          · exact run_bw_payload sys _ ["sync"] none (some session) sync_result st3 hrb2 hf
          · simp [resFailed, dGetD, dLookup, List.find?, pyTruthy] at hf

theorem login_and_sync_payload (sys : Sys) (st : PluginState)
    (email password server : String) (totp : Option String) :
    ∀ d st', login_and_sync sys st email password server totp = .ok (d, st') →
      resFailed d = true → failurePayloadOk d := by
  intro d st' h hf
  unfold login_and_sync at h
  split at h
  · simp at h
  · rename_i config_result st1 heqc
    split at h
    · simp only [Except.ok.injEq, Prod.mk.injEq] at h
      obtain ⟨hd, -⟩ := h
      subst hd
      exact bw_config_server_payload sys st server config_result st1 heqc hf
    · split at h
      · simp only [Except.ok.injEq, Prod.mk.injEq] at h
        obtain ⟨hd, -⟩ := h
        subst hd
        exact Or.inl ⟨_, rfl⟩
      · split at h
        · simp at h
        · rename_i status_result st3 hrb1
          split at h
          · split at h
            · simp only [Except.ok.injEq, Prod.mk.injEq] at h
              obtain ⟨hd, -⟩ := h
              subst hd
              exact Or.inl ⟨_, rfl⟩
            · split at h
              · simp at h
              · rename_i login_result st4 hrb2
                split at h
                · simp only [Except.ok.injEq, Prod.mk.injEq] at h
                  obtain ⟨hd, -⟩ := h
                  subst hd
                  exact run_bw_payload sys st3 _ none none login_result st4 hrb2 hf
                · exact unlock_and_sync_payload sys st4 d st' h hf
          · exact unlock_and_sync_payload sys st3 d st' h hf

theorem clear_saved_password_payload (sys : Sys) (st : PluginState) :
    ∀ d st', clear_saved_password sys st = (d, st') →
      resFailed d = true → failurePayloadOk d := by
  intro d st' h hf
  simp only [clear_saved_password, Prod.mk.injEq] at h
  obtain ⟨hd, -⟩ := h
  subst hd
  simp [resFailed, dGetD, dLookup, List.find?, pyTruthy] at hf

theorem clear_saved_email_payload (sys : Sys) (st : PluginState) :
    ∀ d st', clear_saved_email sys st = (d, st') →
      resFailed d = true → failurePayloadOk d := by
  intro d st' h hf
  simp only [clear_saved_email, Prod.mk.injEq] at h
  obtain ⟨hd, -⟩ := h
  subst hd
  simp [resFailed, dGetD, dLookup, List.find?, pyTruthy] at hf

theorem extract_bw_zip_payload (sys : Sys) (zip : ZipSource) (fs : BinFs) :
    resFailed (extract_bw_zip sys zip fs).res = true →
      failurePayloadOk (extract_bw_zip sys zip fs).res := by
  intro hf
  cases zip with
  | missing =>
    simp only [extract_bw_zip]
    exact Or.inl ⟨_, rfl⟩
  | badZip =>
    simp only [extract_bw_zip]
    exact Or.inl ⟨_, rfl⟩
  | archive members =>
    cases hfind : members.find? unsafeMember with
    | some m0 =>
      simp only [extract_bw_zip, hfind]
      exact Or.inl ⟨_, rfl⟩
    | none =>
      simp only [extract_bw_zip, hfind] at hf ⊢
      revert hf
      generalize (extract_members [sys.decky.pluginDir, "bin"] members fs []).1
        ([sys.decky.pluginDir, "bin"] ++ ["bw"]) = node
      intro hf
      cases node with
      | none => exact Or.inl ⟨_, rfl⟩
      | some fsn =>
        cases fsn with
        | file content => simp [resFailed, dGetD, dLookup, List.find?, pyTruthy] at hf
        | dir => exact Or.inl ⟨_, rfl⟩

/-- Counterexample to C2: when `bw status` exits non-zero, the handler's
failure result is `{"success": False, "error": "boom", "code": 1}` — it
carries a third `"code"` entry, so the payload is not the claimed
`{"success": False, "error": str(e)}` shape; and when spawning the
subprocess raises, the exception escapes `bw_status` instead of being
caught. -/
theorem C2_counterexample :
    bw_status sysF st0 =
      .ok ([("success", .pyBool false), ("error", .pyStr "boom"), ("code", .pyInt 1)],
           { st0 with spawned := [["status"]] }) ∧
    dLookup [("success", PyVal.pyBool false), ("error", PyVal.pyStr "boom"),
      ("code", PyVal.pyInt 1)] "code" = some (.pyInt 1) ∧
    bw_status sysR st0 = .error .spawnError := by
  refine ⟨by rfl, by rfl, by rfl⟩

/-- C2 as amended: every handler follows the catch-and-return shape for the
failures it constructs — every failure dictionary returned by `bw_status`,
`bw_sync`, `bw_list_items`, `bw_get_item`, `bw_config_server`,
`login_and_sync`, `bw_lock`, `bw_logout`, `save_password`, `save_email`,
`clear_saved_password`, `clear_saved_email` and `extract_bw_zip` is
`{"success": False, "error": <string>}`, except that subprocess failures
from `_run_bw` additionally carry a `"code"` entry — while exceptions the
code does not anticipate (subprocess spawn errors, undecodable file bytes)
propagate out of the handlers. -/
theorem C2_failure_payloads (sys : Sys) (st : PluginState)
    (search item_id email password server p e : String) (totp : Option String)
    (zip : ZipSource) (bfs : BinFs) :
    (∀ d st', bw_status sys st = .ok (d, st') → resFailed d = true → failurePayloadOk d) ∧
    (∀ d st', bw_sync sys st = .ok (d, st') → resFailed d = true → failurePayloadOk d) ∧
    (∀ d st', bw_list_items sys st search = .ok (d, st') →
       resFailed d = true → failurePayloadOk d) ∧
    (∀ d st', bw_get_item sys st item_id = .ok (d, st') →
       resFailed d = true → failurePayloadOk d) ∧
    (∀ d st', bw_config_server sys st server = .ok (d, st') →
       resFailed d = true → failurePayloadOk d) ∧
    (∀ d st', login_and_sync sys st email password server totp = .ok (d, st') →
       resFailed d = true → failurePayloadOk d) ∧
    (∀ d st', bw_lock sys st = .ok (d, st') → resFailed d = true → failurePayloadOk d) ∧
    (∀ d st', bw_logout sys st = .ok (d, st') → resFailed d = true → failurePayloadOk d) ∧
    (∀ d st', save_password sys st p = (d, st') → resFailed d = true → failurePayloadOk d) ∧
    (∀ d st', save_email sys st e = (d, st') → resFailed d = true → failurePayloadOk d) ∧
    (∀ d st', clear_saved_password sys st = (d, st') →
       resFailed d = true → failurePayloadOk d) ∧
    (∀ d st', clear_saved_email sys st = (d, st') →
       resFailed d = true → failurePayloadOk d) ∧
    (resFailed (extract_bw_zip sys zip bfs).res = true →
       failurePayloadOk (extract_bw_zip sys zip bfs).res) :=
  ⟨bw_status_payload sys st, bw_sync_payload sys st, bw_list_items_payload sys st search,
   bw_get_item_payload sys st item_id, bw_config_server_payload sys st server,
   login_and_sync_payload sys st email password server totp, bw_lock_payload sys st,
   bw_logout_payload sys st, save_password_payload sys st p, save_email_payload sys st e,
   clear_saved_password_payload sys st, clear_saved_email_payload sys st,
   extract_bw_zip_payload sys zip bfs⟩

/-- Witness for C2 as amended: the failure payload of `save_password` on the
empty password. -/
theorem C2_witness :
    failurePayloadOk [("success", .pyBool false), ("error", .pyStr "Password is empty")] :=
  (C2_failure_payloads sys0 st0 "q" "i" "e" "p" "us" "" "" none .missing
      (fun _ => none)).2.2.2.2.2.2.2.2.1
    [("success", .pyBool false), ("error", .pyStr "Password is empty")] st0 rfl rfl

/-! ## The three persisted files -/

/-- Counterexample to C6: the operations depend on more than whether each
file exists and is non-empty — `get_saved_email_status` returns the file's
contents, so two states whose email files both exist and are non-empty
("a" versus "b") produce different results. -/
theorem C6_counterexample :
    get_saved_email_status sys0 stA =
      .ok ([("saved", .pyBool true), ("email", .pyStr "a")], stA) ∧
    get_saved_email_status sys0 stB =
      .ok ([("saved", .pyBool true), ("email", .pyStr "b")], stB) ∧
    stA.fs (email_file decky0) = some (utf8EncodeStr "a") ∧
    stB.fs (email_file decky0) = some (utf8EncodeStr "b") ∧
    utf8EncodeStr "a" ≠ [] ∧ utf8EncodeStr "b" ≠ [] ∧
    (PyVal.pyStr "a") ≠ (PyVal.pyStr "b") := by
  have hstripa : pyStrip "a" = "a" := rfl
  have hstripb : pyStrip "b" = "b" := rfl
  have hea : "a".isEmpty = false := rfl
  have heb : "b".isEmpty = false := rfl
  refine ⟨?_, ?_, rfl, rfl, by decide, by decide, by simp⟩
  · simp [get_saved_email_status, stA, sys0, decky0, fsWrite,
      readText_utf8EncodeStr, hstripa, hea]
  · simp [get_saved_email_status, stB, sys0, decky0, fsWrite,
      readText_utf8EncodeStr, hstripb, heb]

/-- C6 as amended: the persisted state is exactly the three flat files —
every save/clear/load/status operation on persistent state reads or writes
no path other than the password file, the email file and the session file
(which are pairwise distinct); beyond existence the operations do depend on
the files' contents (what they decode/decrypt to), not only on emptiness. -/
theorem C6_three_files_frame (sys : Sys) (st : PluginState) (p e s : String)
    (q : FsPath) (hq1 : q ≠ password_file sys.decky) (hq2 : q ≠ email_file sys.decky)
    (hq3 : q ≠ session_file sys.decky) :
    (save_password sys st p).2.fs q = st.fs q ∧
    (save_email sys st e).2.fs q = st.fs q ∧
    (clear_saved_password sys st).2.fs q = st.fs q ∧
    (clear_saved_email sys st).2.fs q = st.fs q ∧
    (save_session sys st s).fs q = st.fs q ∧
    (clear_saved_session sys st).fs q = st.fs q ∧
    (∀ st', load_saved_password sys st = .ok st' → st'.fs q = st.fs q) ∧
    (∀ st', load_saved_email sys st = .ok st' → st'.fs q = st.fs q) ∧
    (∀ st', load_saved_session sys st = .ok st' → st'.fs q = st.fs q) ∧
    (∀ d st', get_saved_password_status sys st = .ok (d, st') → st'.fs q = st.fs q) ∧
    (∀ d st', get_saved_email_status sys st = .ok (d, st') → st'.fs q = st.fs q) ∧
    password_file sys.decky ≠ email_file sys.decky ∧
    password_file sys.decky ≠ session_file sys.decky ∧
    email_file sys.decky ≠ session_file sys.decky := by
  refine ⟨?_, ?_, ?_, ?_, ?_, ?_, ?_, ?_, ?_, ?_, ?_, ?_, ?_, ?_⟩
  · unfold save_password
    split
    · rfl
    · exact fsWrite_ne _ _ _ _ hq1
  · simp only [save_email]
    split
    · rfl
    · exact fsWrite_ne _ _ _ _ hq2
  · exact fsWrite_ne _ _ _ _ hq1
  · exact fsWrite_ne _ _ _ _ hq2
  · exact fsWrite_ne _ _ _ _ hq3
  · exact fsWrite_ne _ _ _ _ hq3
  · intro st' h
    simp only [load_saved_password] at h
    split at h <;> try split at h <;> try split at h <;> try split at h <;> try split at h
    all_goals try simp only [Except.ok.injEq] at h
    all_goals first
      | (subst h; rfl)
      | simp at h
  · intro st' h
    simp only [load_saved_email] at h
    split at h <;> try split at h
    all_goals try simp only [Except.ok.injEq] at h
    all_goals first
      | (subst h; rfl)
      | simp at h
  · intro st' h
    simp only [load_saved_session] at h
    split at h <;> try split at h <;> try split at h <;> try split at h <;> try split at h
    all_goals try simp only [Except.ok.injEq] at h
    all_goals first
      | (subst h; rfl)
      | simp at h
  · intro d st' h
    simp only [get_saved_password_status] at h
    split at h <;> try split at h <;> try split at h <;> try split at h <;> try split at h
    all_goals try simp only [Except.ok.injEq, Prod.mk.injEq] at h
    all_goals first
      | (obtain ⟨-, hst⟩ := h; subst hst; rfl)
      | simp at h
  · intro d st' h
    simp only [get_saved_email_status] at h
    split at h <;> try split at h <;> try split at h <;> try split at h <;> try split at h
    all_goals try simp only [Except.ok.injEq, Prod.mk.injEq] at h
    all_goals first
      | (obtain ⟨-, hst⟩ := h; subst hst; rfl)
      | simp at h
  · simp [password_file, email_file]
  · simp [password_file, session_file]
  · simp [email_file, session_file]

/-- Witness for C6 as amended: saving a password does not touch the foreign
path `["x"]`. -/
theorem C6_witness :
    (save_password sys0 st0 "pw").2.fs ["x"] = st0.fs ["x"] :=
  (C6_three_files_frame sys0 st0 "pw" "e" "s" ["x"] (by decide) (by decide) (by decide)).1

/-! ## Locating, downloading and extracting the bw binary -/

/-- C7 (spec-modelled): the backend locates the `bw` executable at the
plugin's `bin` directory (`_bw_binary_path` in `src/main.py`), and — per the
spec's purpose section, realised by repository revisions outside `src/` —
fetches the binary over the network when it is not already present, after
which it is installed at that path. -/
theorem C7_locate_or_download (sys : Sys) (fs : BinFs) (fetched : List Nat)
    (habsent : fs (bw_binary_path sys.decky) = none) :
    bw_binary_path sys.decky = [sys.decky.pluginDir, "bin", "bw"] ∧
    (download_bw_binary sys fetched fs).2 = true ∧
    (download_bw_binary sys fetched fs).1 (bw_binary_path sys.decky) =
      some (.file fetched) := by
  refine ⟨rfl, ?_, ?_⟩
  · simp [download_bw_binary, habsent]
  · simp [download_bw_binary, habsent, binWrite]

/-- Witness for C7: downloading into an empty `bin` tree fetches. -/
theorem C7_witness :
    (download_bw_binary sys0 [1] (fun _ => none)).2 = true :=
  (C7_locate_or_download sys0 (fun _ => none) [1] rfl).2.1

theorem extract_members_writes (binDir : FsPath) :
    ∀ (ms : List ZipMember) (fs : BinFs) (ws : List FsPath),
      ∀ p ∈ (extract_members binDir ms fs ws).2,
        p ∈ ws ∨ ∃ m ∈ ms, p = binDir ++ posixParts m.filename
  | [], fs, ws => by
    intro p hp
    exact Or.inl hp
  | m :: rest, fs, ws => by
    intro p hp
    unfold extract_members at hp
    split at hp
    · rcases extract_members_writes binDir rest _ ws p hp with h | ⟨m', hm', he⟩
      · exact Or.inl h
      · exact Or.inr ⟨m', List.mem_cons_of_mem m hm', he⟩
    · rcases extract_members_writes binDir rest _
          (ws ++ [binDir ++ posixParts m.filename]) p hp with h | ⟨m', hm', he⟩
      · rcases List.mem_append.mp h with h1 | h2
        · exact Or.inl h1
        · exact Or.inr ⟨m, List.mem_cons_self m rest, by simpa using h2⟩
      · exact Or.inr ⟨m', List.mem_cons_of_mem m hm', he⟩

/-- C10: `extract_bw_zip` validates every member path before extracting
anything — when some member is absolute or has a `..` component it returns
the "Unsafe path in zip" failure having written nothing and left the tree
untouched; and every path it ever writes is the `bin` directory extended by
the parts of a validated member name (relative, with no `..`), so no file is
written outside the plugin's `bin` directory. -/
theorem C10_zip_path_safety (sys : Sys) (fs : BinFs) (members : List ZipMember) :
    ((∃ m ∈ members, unsafeMember m = true) →
       (extract_bw_zip sys (.archive members) fs).writes = [] ∧
       (extract_bw_zip sys (.archive members) fs).fs = fs ∧
       ∃ m ∈ members, unsafeMember m = true ∧
         (extract_bw_zip sys (.archive members) fs).res =
           [("success", .pyBool false),
            ("error", .pyStr ("Unsafe path in zip: " ++ m.filename))]) ∧
    (∀ p ∈ (extract_bw_zip sys (.archive members) fs).writes,
       ∃ m ∈ members, unsafeMember m = false ∧
         p = [sys.decky.pluginDir, "bin"] ++ posixParts m.filename ∧
         posixIsAbsolute m.filename = false ∧
         (posixParts m.filename).contains ".." = false) := by
  constructor
  · intro hex
    have hsome : (members.find? unsafeMember).isSome := by
      rw [List.find?_isSome]
      simpa using hex
    obtain ⟨m0, hm0⟩ := Option.isSome_iff_exists.mp hsome
    have hmem := List.mem_of_find?_eq_some hm0
    have hm0p := List.find?_some hm0
    simp only [extract_bw_zip]
    rw [hm0]
    exact ⟨rfl, rfl, m0, hmem, hm0p, rfl⟩
  · intro p hp
    cases hfind : members.find? unsafeMember with
    | some m0 =>
      simp only [extract_bw_zip, hfind] at hp
      simp at hp
    | none =>
      simp only [extract_bw_zip, hfind] at hp
      have hall := List.find?_eq_none.mp hfind
      split at hp <;>
      · have hp' : p ∈ (extract_members [sys.decky.pluginDir, "bin"] members fs []).2 := hp
        rcases extract_members_writes _ members fs [] p hp' with h0 | ⟨m, hm, he⟩
        · simp at h0
        · have hsafe : unsafeMember m = false := by
            have hm' := hall m hm
            simpa using hm'
          have hparts : posixIsAbsolute m.filename = false ∧
              (posixParts m.filename).contains ".." = false := by
            have hs := hsafe
            simp only [unsafeMember, Bool.or_eq_false_iff] at hs
            exact hs
          exact ⟨m, hm, hsafe, he, hparts.1, hparts.2⟩

/-- Witness for C10: the archive whose only member is `../evil` is rejected
with nothing written and the tree untouched. -/
theorem C10_witness :
    (extract_bw_zip sys0 (.archive [⟨"../evil", [7]⟩]) (fun _ => none)).writes = [] ∧
    (extract_bw_zip sys0 (.archive [⟨"../evil", [7]⟩]) (fun _ => none)).fs =
      (fun _ => none) := by
  have h := (C10_zip_path_safety sys0 (fun _ => none) [⟨"../evil", [7]⟩]).1
    ⟨⟨"../evil", [7]⟩, by simp, by decide⟩
  exact ⟨h.1, h.2.1⟩

end Deckwarden
